import Mathlib

/-!
A shallow embedding of the powermetrics-go line parser
(`metrics_process.go`, `parser.go`, `config.go`, `internal/types.go`)
and proofs of the specification claims about it.

Modelling conventions:
* Go strings are modelled as `List Char` (`Str`); all lines the parser
  inspects are ASCII, so ASCII-only case folding matches `strings.ToLower`
  and `strings.ToUpper` on the inputs of interest.
* Go `float64` is modelled as `Fq`.  Every numeric literal the parser
  extracts is a short decimal, and the claims compare parsed values with
  decimal constants and exact scalings (`*1024`, `/1000`, `*100`), none of
  which depend on binary floating-point rounding.
* Go maps are modelled as insertion-ordered association lists; `nil`
  pointers/slices are `Option`/`[]`.  Mutation of the `Parser` receiver is
  explicit state passing.
* Each compiled regular expression is embedded as a matcher function with
  RE2's leftmost-first semantics: the search tries every start position
  from the left, greedy pieces prefer the longest extent and lazy pieces
  the shortest, with backtracking where the Go pattern needs it.
* Fallible Go calls (`strconv.ParseFloat`, `strconv.Atoi`) are `Option`
  valued; the Go idiom `v, _ := strconv.ParseFloat(s, 64)` (error
  discarded, yielding 0 on a syntax error) is `parseFloatOr0`.
-/

namespace PM

/-- Go strings, modelled as their character lists. -/
abbrev Str := List Char

/-- Characters of a Lean string literal, for writing test lines. -/
def strL (s : String) : Str := s.data

/-- ASCII lowercasing of one character, as `strings.ToLower` acts on the
ASCII subset the parser sees. -/
def lowerChar (c : Char) : Char :=
  if 'A' ≤ c ∧ c ≤ 'Z' then Char.ofNat (c.toNat + 32) else c

/-- ASCII uppercasing of one character (`strings.ToUpper` on ASCII). -/
def upperChar (c : Char) : Char :=
  if 'a' ≤ c ∧ c ≤ 'z' then Char.ofNat (c.toNat - 32) else c

/-- `strings.ToLower` on ASCII text. -/
def strToLower (s : Str) : Str := s.map lowerChar

/-- `strings.ToUpper` on ASCII text. -/
def strToUpper (s : Str) : Str := s.map upperChar

/-- The whitespace class used by `strings.TrimSpace` and the regexp class
`\s` (ASCII portion). -/
def isSpaceChar (c : Char) : Bool :=
  c == ' ' || c == '\t' || c == '\n' || c == '\x0b' || c == '\x0c' || c == '\r'

/-- `strings.TrimSpace` on ASCII text. -/
def trimSpace (s : Str) : Str :=
  ((s.dropWhile isSpaceChar).reverse.dropWhile isSpaceChar).reverse

/-- Does `pat` occur at the very start of `s` (`strings.HasPrefix`)? -/
def leadsWith : Str → Str → Bool
  | [], _ => true
  | _ :: _, [] => false
  | a :: as, b :: bs => a == b && leadsWith as bs

/-- `strings.Contains pat s`: does `pat` occur anywhere in `s`? -/
def containsSub (pat : Str) : Str → Bool
  | [] => leadsWith pat []
  | c :: rest => leadsWith pat (c :: rest) || containsSub pat rest

/-- `strings.Index`: index of the first occurrence of `pat` in `s`. -/
def firstIdx (pat : Str) : Str → Option Nat
  | [] => if pat.isEmpty then some 0 else none
  | c :: rest =>
    if leadsWith pat (c :: rest) then some 0
    else (firstIdx pat rest).map (· + 1)

/-- `strings.LastIndex`: index of the last occurrence of `pat` in `s`. -/
def lastIdx (pat : Str) : Str → Option Nat
  | [] => if pat.isEmpty then some 0 else none
  | c :: rest =>
    match lastIdx pat rest with
    | some i => some (i + 1)
    | none => if leadsWith pat (c :: rest) then some 0 else none

/-- The numeric model for Go `float64`: an exact rational, normalized at
construction (denominator positive, fraction in lowest terms), so that
structural equality is value equality, as Go `==` on `float64` is.  A
dedicated type is used instead of Mathlib's `Fq` so that every arithmetic
operation unfolds for kernel evaluation.  All numerics the parser handles
are short decimals and exact scalings, where rational and binary
floating-point arithmetic agree. -/
structure Fq where
  num : Int
  den : Nat
deriving DecidableEq

/-- Build a normalized fraction from an integer numerator and a natural
denominator (0 denominator, which no caller produces, yields 0). -/
def mkFq (n : Int) (d : Nat) : Fq :=
  if d = 0 then ⟨0, 1⟩
  else
    let g := Nat.gcd n.natAbs d
    ⟨n / (g : Int), d / g⟩

/-- Build a normalized fraction from two integers. -/
def mkFqi (n d : Int) : Fq :=
  if 0 ≤ d then mkFq n d.toNat else mkFq (-n) (-d).toNat

instance : OfNat Fq n := ⟨⟨n, 1⟩⟩

instance : NatCast Fq := ⟨fun n => ⟨n, 1⟩⟩

instance : IntCast Fq := ⟨fun n => ⟨n, 1⟩⟩

/-- Decimal literals such as `15.5` denote their exact rational value. -/
instance : OfScientific Fq := ⟨fun m s e => if s then mkFq m (10 ^ e) else ⟨(m : Int) * 10 ^ e, 1⟩⟩

instance : Add Fq := ⟨fun a b => mkFq (a.num * b.den + b.num * a.den) (a.den * b.den)⟩

instance : Sub Fq := ⟨fun a b => mkFq (a.num * b.den - b.num * a.den) (a.den * b.den)⟩

instance : Mul Fq := ⟨fun a b => mkFq (a.num * b.num) (a.den * b.den)⟩

instance : Neg Fq := ⟨fun a => ⟨-a.num, a.den⟩⟩

instance : Div Fq := ⟨fun a b => mkFqi (a.num * b.den) ((a.den : Int) * b.num)⟩

instance : LT Fq := ⟨fun a b => a.num * b.den < b.num * a.den⟩

instance : LE Fq := ⟨fun a b => a.num * b.den ≤ b.num * a.den⟩

instance (a b : Fq) : Decidable (a < b) :=
  inferInstanceAs (Decidable (a.num * b.den < b.num * a.den))

instance (a b : Fq) : Decidable (a ≤ b) :=
  inferInstanceAs (Decidable (a.num * b.den ≤ b.num * a.den))

/-- Floor of the rational (Go `uint64(x)` truncation agrees on the
non-negative values it is applied to). -/
def Fq.floor (a : Fq) : Int := a.num.fdiv a.den

/-- The regexp class `[0-9]`. -/
def isDigitChar (c : Char) : Bool := '0' ≤ c && c ≤ '9'

/-- The regexp class `[\d.]`. -/
def isDigitDot (c : Char) : Bool := isDigitChar c || c == '.'

/-- Numeric value of a decimal digit character. -/
def digitVal (c : Char) : Nat := c.toNat - 48

/-- Value of a string of decimal digits. -/
def digitsToNat (ds : Str) : Nat := ds.foldl (fun acc c => acc * 10 + digitVal c) 0

/-- Unsigned decimal literal (digits, optional point, digits, at least one
digit overall), as `strconv.ParseFloat` reads the decimal forms the
parser's regexes capture. -/
def parseDecQ? (s : Str) : Option Fq :=
  let ip := s.takeWhile isDigitChar
  let rest := s.drop ip.length
  match rest with
  | [] => if ip.isEmpty then none else some (digitsToNat ip : Fq)
  | '.' :: frac =>
    let fp := frac.takeWhile isDigitChar
    let rest2 := frac.drop fp.length
    if rest2.isEmpty then
      if ip.isEmpty && fp.isEmpty then none
      else some ((digitsToNat ip : Fq) + (digitsToNat fp : Fq) / ((10 ^ fp.length : Nat) : Fq))
    else none
  | _ => none

/-- `strconv.ParseFloat` on the decimal forms occurring in powermetrics
output (optional sign, then an unsigned decimal).  Exponent, hex and
inf/nan spellings never occur in the captured substrings and are not
modelled; nor is the overflow-to-infinity range error, which cannot fire
on realistic metric magnitudes. -/
def parseFloatQ? (s : Str) : Option Fq :=
  match s with
  | '+' :: rest => parseDecQ? rest
  | '-' :: rest => (parseDecQ? rest).map (fun q => -q)
  | _ => parseDecQ? s

/-- The Go idiom `v, _ := strconv.ParseFloat(s, 64)`: a syntax error is
discarded and leaves `v = 0`. -/
def parseFloatOr0 (s : Str) : Fq := (parseFloatQ? s).getD 0

/-- `strconv.Atoi` on a digits-only capture, including the `int64` range
check (out of range is an error, which the caller treats as no-match). -/
def atoiNat? (s : Str) : Option Nat :=
  if s.isEmpty || !(s.all isDigitChar) then none
  else
    let n := digitsToNat s
    if n < 2 ^ 63 then some n else none

/-- `numberExtractor.FindAllString`: all leftmost, non-overlapping, maximal
matches of `[0-9]+(?:\.[0-9]+)?`.  The fuel is the string length; every
recursive step consumes at least one character. -/
def extractNumbersAux : Nat → Str → List Str
  | 0, _ => []
  | _ + 1, [] => []
  | fuel + 1, c :: rest =>
    if isDigitChar c then
      let ds := (c :: rest).takeWhile isDigitChar
      let r1 := (c :: rest).drop ds.length
      match r1 with
      | '.' :: d2 :: r2 =>
        if isDigitChar d2 then
          let fs := (d2 :: r2).takeWhile isDigitChar
          let r3 := (d2 :: r2).drop fs.length
          (ds ++ '.' :: fs) :: extractNumbersAux fuel r3
        else ds :: extractNumbersAux fuel r1
      | _ => ds :: extractNumbersAux fuel r1
    else extractNumbersAux fuel rest

/-- All embedded decimal numbers of a string, leftmost first. -/
def extractNumbers (s : Str) : List Str := extractNumbersAux s.length s

/-- `parseTrailingValue(line, suffix)`: last case-insensitive occurrence of
the unit, truncate the text before it at the first `(`, keep only the text
after the last `:`, return the last embedded decimal number. -/
def parseTrailingValue (line suffix : Str) : Fq × Bool :=
  match lastIdx (strToLower suffix) (strToLower line) with
  | none => (0, false)
  | some idx =>
    let seg0 := line.take idx
    let seg1 := match firstIdx ['('] seg0 with
      | some pIdx => seg0.take pIdx
      | none => seg0
    let seg2 := match lastIdx [':'] seg1 with
      | some cIdx => seg1.drop (cIdx + 1)
      | none => seg1
    match (extractNumbers seg2).getLast? with
    | none => (0, false)
    | some numStr =>
      match parseFloatQ? numStr with
      | none => (0, false)
      | some v => (v, true)

/-- `parseLeadingValueAfterColon(line, suffix)`: text after the first
colon, truncated at the first `(`; then the first embedded number before
the first case-insensitive occurrence of the unit. -/
def parseLeadingValueAfterColon (line suffix : Str) : Fq × Bool :=
  let seg0 := match firstIdx [':'] line with
    | some cIdx => line.drop (cIdx + 1)
    | none => line
  let seg1 := match firstIdx ['('] seg0 with
    | some pIdx => seg0.take pIdx
    | none => seg0
  match firstIdx (strToLower suffix) (strToLower seg1) with
  | none => (0, false)
  | some idx =>
    let seg2 := seg1.take idx
    match (extractNumbers seg2).head? with
    | none => (0, false)
    | some numStr =>
      match parseFloatQ? numStr with
      | none => (0, false)
      | some v => (v, true)

/-- `hasAll`: the string contains every one of the tokens. -/
def hasAll (s : Str) (tokens : List Str) : Bool := tokens.all (fun t => containsSub t s)

/-- `hasNone`: the string contains none of the tokens. -/
def hasNone (s : Str) (tokens : List Str) : Bool := tokens.all (fun t => !(containsSub t s))

/-- `hasAny`: the string contains at least one of the tokens. -/
def hasAny (s : Str) (tokens : List Str) : Bool := tokens.any (fun t => containsSub t s)

/-- `clampPercent`: clamp a percentage into [0, 100]. -/
def clampPercent (value : Fq) : Fq :=
  if value < 0 then 0 else if value > 100 then 100 else value

/-- `convertToNanoseconds`: scale by the unit and truncate to an unsigned
integer, as the Go `uint64(...)` conversion truncates toward zero. -/
def convertToNanoseconds (value : Fq) (unit : Str) : Nat :=
  match strToLower unit with
  | ['u', 's'] => (value * 1000).floor.toNat
  | ['m', 's'] => (value * 1000000).floor.toNat
  | ['s'] => (value * 1000000000).floor.toNat
  | _ => 0

/-- `deriveBusyPercent`: an explicit percent string that parses wins and is
clamped; otherwise a non-positive window (or zero active time) yields 0,
else `(active_ns / window_ns) * 100` clamped.  The window is a
`time.Duration`, i.e. a signed nanosecond count. -/
def deriveBusyPercent (activeNs : Nat) (explicitPercent : Str) (window : Int) : Fq :=
  match (if explicitPercent.isEmpty then none else parseFloatQ? explicitPercent) with
  | some parsed => clampPercent parsed
  | none =>
    if window ≤ 0 ∨ activeNs = 0 then 0
    else clampPercent ((activeNs : Fq) / (window : Fq) * 100)

/-- Unanchored regexp search: try a match at every start position from the
left and keep the first (leftmost) success. -/
def searchM {α : Type} (m : Str → Option α) : Str → Option α
  | [] => m []
  | c :: rest =>
    match m (c :: rest) with
    | some r => some r
    | none => searchM m rest

/-- Match a literal and return the remainder. -/
def litThen (lit s : Str) : Option Str :=
  if leadsWith lit s then some (s.drop lit.length) else none

/-- Split off the maximal run of characters satisfying `pred`. -/
def takeRun (pred : Char → Bool) (s : Str) : Str × Str :=
  (s.takeWhile pred, s.drop (s.takeWhile pred).length)

/-- Backtracking for a greedy character class followed by more pattern:
try group lengths `k, k-1, …, 1` (longest first, as a greedy `+` does)
against the continuation `tailM` applied to the rest of the string. -/
def tryLens {α : Type} (tailM : Str → Option α) (s : Str) : Nat → Option (Str × α)
  | 0 => none
  | k + 1 =>
    match tailM (s.drop (k + 1)) with
    | some r => some (s.take (k + 1), r)
    | none => tryLens tailM s k

/-- The regexp class `[A-Z0-9-]` of the cluster-name group. -/
def isClusterChar (c : Char) : Bool := ('A' ≤ c && c ≤ 'Z') || isDigitChar c || c == '-'

/-- `clusterOnlineRegex`: `([A-Z0-9-]+)-Cluster Online: ([\d.]+)%`, matched
at the current position; yields (group 1, number capture). -/
def clusterOnlineAt (s : Str) : Option (Str × Str) :=
  tryLens (fun t =>
    (litThen (strL "-Cluster Online: ") t).bind fun t1 =>
      let (num, t2) := takeRun isDigitDot t1
      if num.isEmpty then none
      else (litThen ['%'] t2).map fun _ => num)
    s (s.takeWhile isClusterChar).length

/-- `clusterHWFreqRegex`: `([A-Z0-9-]+)-Cluster HW active frequency: ([\d.]+) MHz`. -/
def clusterHWFreqAt (s : Str) : Option (Str × Str) :=
  tryLens (fun t =>
    (litThen (strL "-Cluster HW active frequency: ") t).bind fun t1 =>
      let (num, t2) := takeRun isDigitDot t1
      if num.isEmpty then none
      else (litThen (strL " MHz") t2).map fun _ => num)
    s (s.takeWhile isClusterChar).length

/-- `batteryRegex`: `Battery: percent_charge: ([\d.]+)`. -/
def batteryAt (s : Str) : Option Str :=
  (litThen (strL "Battery: percent_charge: ") s).bind fun t =>
    let (num, _) := takeRun isDigitDot t
    if num.isEmpty then none else some num

/-- `networkRegex`: `out: ([\d.]+) packets/s, ([\d.]+) bytes/s`. -/
def networkOutAt (s : Str) : Option (Str × Str) :=
  (litThen (strL "out: ") s).bind fun t =>
    let (n1, t1) := takeRun isDigitDot t
    if n1.isEmpty then none
    else (litThen (strL " packets/s, ") t1).bind fun t2 =>
      let (n2, t3) := takeRun isDigitDot t2
      if n2.isEmpty then none
      else (litThen (strL " bytes/s") t3).map fun _ => (n1, n2)

/-- `networkInRegex`: `in: +([\d.]+) packets/s, ([\d.]+) bytes/s`. -/
def networkInAt (s : Str) : Option (Str × Str) :=
  (litThen (strL "in:") s).bind fun t =>
    let (sp, t0) := takeRun (fun c => c == ' ') t
    if sp.isEmpty then none
    else
      let (n1, t1) := takeRun isDigitDot t0
      if n1.isEmpty then none
      else (litThen (strL " packets/s, ") t1).bind fun t2 =>
        let (n2, t3) := takeRun isDigitDot t2
        if n2.isEmpty then none
        else (litThen (strL " bytes/s") t3).map fun _ => (n1, n2)

/-- `diskReadRegex`: `read: ([\d.]+) ops/s ([\d.]+) KBytes/s`. -/
def diskReadAt (s : Str) : Option (Str × Str) :=
  (litThen (strL "read: ") s).bind fun t =>
    let (n1, t1) := takeRun isDigitDot t
    if n1.isEmpty then none
    else (litThen (strL " ops/s ") t1).bind fun t2 =>
      let (n2, t3) := takeRun isDigitDot t2
      if n2.isEmpty then none
      else (litThen (strL " KBytes/s") t3).map fun _ => (n1, n2)

/-- `diskWriteRegex`: `write: ([\d.]+) ops/s ([\d.]+) KBytes/s`. -/
def diskWriteAt (s : Str) : Option (Str × Str) :=
  (litThen (strL "write: ") s).bind fun t =>
    let (n1, t1) := takeRun isDigitDot t
    if n1.isEmpty then none
    else (litThen (strL " ops/s ") t1).bind fun t2 =>
      let (n2, t3) := takeRun isDigitDot t2
      if n2.isEmpty then none
      else (litThen (strL " KBytes/s") t3).map fun _ => (n1, n2)

/-- `interruptRegex`: `CPU (\d+):`. -/
def interruptAt (s : Str) : Option Str :=
  (litThen (strL "CPU ") s).bind fun t =>
    let (ds, t1) := takeRun isDigitChar t
    if ds.isEmpty then none
    else (litThen [':'] t1).map fun _ => ds

/-- `interruptTotalRegex`: `Total IRQ: ([\d.]+) interrupts/sec`. -/
def interruptTotalAt (s : Str) : Option Str :=
  (litThen (strL "Total IRQ: ") s).bind fun t =>
    let (num, t1) := takeRun isDigitDot t
    if num.isEmpty then none
    else (litThen (strL " interrupts/sec") t1).map fun _ => num

/-- `interruptIPITimerRegex`: `\|-> (IPI|TIMER): ([\d.]+) interrupts/sec`;
the first capture is returned verbatim (`"IPI"` or `"TIMER"`). -/
def ipiTimerAt (s : Str) : Option (Str × Str) :=
  (litThen (strL "|-> ") s).bind fun t =>
    let which? : Option (Str × Str) :=
      match litThen (strL "IPI") t with
      | some t1 => some (strL "IPI", t1)
      | none =>
        match litThen (strL "TIMER") t with
        | some t1 => some (strL "TIMER", t1)
        | none => none
    which?.bind fun (which, t1) =>
      (litThen (strL ": ") t1).bind fun t2 =>
        let (num, t3) := takeRun isDigitDot t2
        if num.isEmpty then none
        else (litThen (strL " interrupts/sec") t3).map fun _ => (which, num)

/-- `gpuFreqRegex`: `GPU HW active frequency: ([\d.]+) MHz`. -/
def gpuFreqAt (s : Str) : Option Str :=
  (litThen (strL "GPU HW active frequency: ") s).bind fun t =>
    let (num, t1) := takeRun isDigitDot t
    if num.isEmpty then none
    else (litThen (strL " MHz") t1).map fun _ => num

/-- `gpuHwActiveResidencyRegex`: `GPU HW active residency: +([\d.]+)%`. -/
def gpuHwActiveResidencyAt (s : Str) : Option Str :=
  (litThen (strL "GPU HW active residency:") s).bind fun t =>
    let (sp, t0) := takeRun (fun c => c == ' ') t
    if sp.isEmpty then none
    else
      let (num, t1) := takeRun isDigitDot t0
      if num.isEmpty then none
      else (litThen ['%'] t1).map fun _ => num

/-- `gpuIdleResidencyRegex`: `GPU idle residency: +([\d.]+)%`. -/
def gpuIdleResidencyAt (s : Str) : Option Str :=
  (litThen (strL "GPU idle residency:") s).bind fun t =>
    let (sp, t0) := takeRun (fun c => c == ' ') t
    if sp.isEmpty then none
    else
      let (num, t1) := takeRun isDigitDot t0
      if num.isEmpty then none
      else (litThen ['%'] t1).map fun _ => num

/-- `gpuSWStateRegex`: `GPU SW (?:requested state|state): \(([^)]+)\)`;
the alternation prefers its left branch. -/
def gpuSWStateAt (s : Str) : Option Str :=
  (litThen (strL "GPU SW ") s).bind fun t =>
    let afterState : Option Str :=
      match litThen (strL "requested state") t with
      | some t1 => some t1
      | none => litThen (strL "state") t
    afterState.bind fun t1 =>
      (litThen (strL ": (") t1).bind fun t2 =>
        let (body, t3) := takeRun (fun c => !(c == ')')) t2
        if body.isEmpty then none
        else (litThen [')'] t3).map fun _ => body

/-- `CPU (\d+) frequency: ([\d.]+) MHz` (compiled inline in `updateCPUInfo`). -/
def cpuFreqAt (s : Str) : Option (Str × Str) :=
  (litThen (strL "CPU ") s).bind fun t =>
    let (ds, t1) := takeRun isDigitChar t
    if ds.isEmpty then none
    else (litThen (strL " frequency: ") t1).bind fun t2 =>
      let (num, t3) := takeRun isDigitDot t2
      if num.isEmpty then none
      else (litThen (strL " MHz") t3).map fun _ => (ds, num)

/-- `CPU (\d+) active residency: +([\d.]+)%` (compiled inline). -/
def cpuActiveAt (s : Str) : Option (Str × Str) :=
  (litThen (strL "CPU ") s).bind fun t =>
    let (ds, t1) := takeRun isDigitChar t
    if ds.isEmpty then none
    else (litThen (strL " active residency:") t1).bind fun t2 =>
      let (sp, t3) := takeRun (fun c => c == ' ') t2
      if sp.isEmpty then none
      else
        let (num, t4) := takeRun isDigitDot t3
        if num.isEmpty then none
        else (litThen ['%'] t4).map fun _ => (ds, num)

/-- `CPU (\d+) idle residency: +([\d.]+)%` (compiled inline). -/
def cpuIdleAt (s : Str) : Option (Str × Str) :=
  (litThen (strL "CPU ") s).bind fun t =>
    let (ds, t1) := takeRun isDigitChar t
    if ds.isEmpty then none
    else (litThen (strL " idle residency:") t1).bind fun t2 =>
      let (sp, t3) := takeRun (fun c => c == ' ') t2
      if sp.isEmpty then none
      else
        let (num, t4) := takeRun isDigitDot t3
        if num.isEmpty then none
        else (litThen ['%'] t4).map fun _ => (ds, num)

/-- `CPU (\d+) down residency: +([\d.]+)%` (compiled inline). -/
def cpuDownAt (s : Str) : Option (Str × Str) :=
  (litThen (strL "CPU ") s).bind fun t =>
    let (ds, t1) := takeRun isDigitChar t
    if ds.isEmpty then none
    else (litThen (strL " down residency:") t1).bind fun t2 =>
      let (sp, t3) := takeRun (fun c => c == ' ') t2
      if sp.isEmpty then none
      else
        let (num, t4) := takeRun isDigitDot t3
        if num.isEmpty then none
        else (litThen ['%'] t4).map fun _ => (ds, num)

/-- `cpuFreqResidencyRegex`: one `(\d+) MHz: +([\d.]+)%` match at the
current position, returning the two captures and the remainder after the
match. -/
def freqPairAt (s : Str) : Option ((Str × Str) × Str) :=
  let (ds, t) := takeRun isDigitChar s
  if ds.isEmpty then none
  else (litThen (strL " MHz:") t).bind fun t1 =>
    let (sp, t2) := takeRun (fun c => c == ' ') t1
    if sp.isEmpty then none
    else
      let (num, t3) := takeRun isDigitDot t2
      if num.isEmpty then none
      else (litThen ['%'] t3).map fun t4 => ((ds, num), t4)

/-- `FindAllStringSubmatch` for the frequency-residency pair pattern:
leftmost non-overlapping matches; the fuel is the string length. -/
def findAllFreqPairs : Nat → Str → List (Str × Str)
  | 0, _ => []
  | _ + 1, [] => []
  | fuel + 1, c :: rest =>
    match freqPairAt (c :: rest) with
    | some (caps, rem) => caps :: findAllFreqPairs fuel rem
    | none => findAllFreqPairs fuel rest

/-- Number token of `procLineRegex`: greedy `[0-9]+(?:\.[0-9]+)?`. -/
def numTok (s : Str) : Option (Str × Str) :=
  let (ds, t) := takeRun isDigitChar s
  if ds.isEmpty then none
  else
    match t with
    | '.' :: u =>
      let (fs, t2) := takeRun isDigitChar u
      if fs.isEmpty then some (ds, t) else some (ds ++ '.' :: fs, t2)
    | _ => some (ds, t)

/-- Unit token `(us|ms|s)`; alternation prefers the left branch. -/
def unitTok (s : Str) : Option (Str × Str) :=
  if leadsWith (strL "us") s then some (strL "us", s.drop 2)
  else if leadsWith (strL "ms") s then some (strL "ms", s.drop 2)
  else if leadsWith (strL "s") s then some (strL "s", s.drop 1)
  else none

/-- Does the trailer satisfy `(?:\s+.*)?$`?  Either nothing is left, or at
least one whitespace character follows and, after the maximal whitespace
run, no newline remains (`.` does not match a newline). -/
def tailOk (r : Str) : Bool :=
  match r with
  | [] => true
  | c :: _ => isSpaceChar c && ((r.dropWhile isSpaceChar).all fun c' => !(c' == '\n'))

/-- The optional percent group `(?:\s+\(([0-9]+(?:\.[0-9]+)?)\s*%\))?`
followed by a valid trailer; returns the captured percent string. -/
def pctGroup (r : Str) : Option Str :=
  let (sp, t) := takeRun isSpaceChar r
  if sp.isEmpty then none
  else (litThen ['('] t).bind fun t1 =>
    (numTok t1).bind fun (pct, t2) =>
      let t3 := t2.dropWhile isSpaceChar
      (litThen ['%'] t3).bind fun t4 =>
        (litThen [')'] t4).bind fun t5 =>
          if tailOk t5 then some pct else none

/-- After the lazy name group: `\s+` then the duration number, `\s*`, the
unit, then the optional percent group (preferred when it matches) and the
trailer. -/
def afterName (s : Str) : Option (Str × Str × Option Str) :=
  let (sp, t) := takeRun isSpaceChar s
  if sp.isEmpty then none
  else (numTok t).bind fun (v, t1) =>
    let t2 := t1.dropWhile isSpaceChar
    (unitTok t2).bind fun (u, t3) =>
      match pctGroup t3 with
      | some pct => some (v, u, some pct)
      | none => if tailOk t3 then some (v, u, none) else none

/-- The lazy `(.+?)` group: grow the name one character at a time (shortest
first) until the rest of the pattern matches; `.` never matches a newline.
The fuel is the remaining length. -/
def nameLoop : Nat → Str → Str → Option (Str × Str × Str × Option Str)
  | 0, _, _ => none
  | fuel + 1, acc, rest =>
    match rest with
    | [] => none
    | c :: rest' =>
      if c == '\n' then none
      else
        let acc' := acc ++ [c]
        match afterName rest' with
        | some (v, u, pct) => some (acc', v, u, pct)
        | none => nameLoop fuel acc' rest'

/-- Backtracking over the `\s+` run before the name: a greedy `\s+` prefers
the longest run, and only when no name split succeeds does it yield
characters back to the lazy name group. -/
def spaceNameLoop (t : Str) : Nat → Option (Str × Str × Str × Option Str)
  | 0 => none
  | k + 1 =>
    match nameLoop (t.drop (k + 1)).length [] (t.drop (k + 1)) with
    | some r => some r
    | none => spaceNameLoop t k

/-- A successful `procLineRegex` submatch: pid digits, name, duration
value, unit, and the optional explicit percent. -/
structure ProcMatch where
  pidStr : Str
  name : Str
  valueStr : Str
  unit : Str
  percent : Option Str
deriving DecidableEq

/-- `procLineRegex` (anchored): `^pid\s+(\d+)\s+(.+?)\s+([0-9]+(?:\.[0-9]+)?)\s*(us|ms|s)(?:\s+\(([0-9]+(?:\.[0-9]+)?)\s*%\))?(?:\s+.*)?$`. -/
def procLineMatch (line : Str) : Option ProcMatch :=
  (litThen (strL "pid") line).bind fun t =>
    let (sp1, t1) := takeRun isSpaceChar t
    if sp1.isEmpty then none
    else
      let (ds, t2) := takeRun isDigitChar t1
      if ds.isEmpty then none
      else
        let m := (t2.takeWhile isSpaceChar).length
        (spaceNameLoop t2 m).map fun (nm, v, u, pct) => ⟨ds, nm, v, u, pct⟩

/-- System-level scalar gauges (`internal.SystemSample`). -/
structure SystemSample where
  CPUPowerWatts : Fq
  CPUFrequencyMHz : Fq
  GPUBusyPercent : Fq
  GPUPowerWatts : Fq
  GPUFrequencyMHz : Fq
  GPUTemperatureC : Fq
  CPUTemperatureC : Fq
  ANEBusyPercent : Fq
  ANEPowerWatts : Fq
  DRAMPowerWatts : Fq
  BatteryPercent : Fq
deriving DecidableEq

/-- The zero value a fresh `Parser` starts from. -/
def SystemSample.zero : SystemSample := ⟨0, 0, 0, 0, 0, 0, 0, 0, 0, 0, 0⟩

/-- Summary information about one CPU cluster (`ClusterInfo`).  The Go
field `Type` is spelled `Ctype` because `Type` is reserved in Lean. -/
structure ClusterInfo where
  Name : Str
  Ctype : Str
  OnlinePercent : Fq
  HWActiveFreq : Fq
deriving DecidableEq

/-- Per-CPU residency data (`internal.CPUResidencyMetrics`); the
frequency→percent map is an insertion-ordered association list. -/
structure CPUResidencyMetrics where
  CPUID : Nat
  ActiveResidency : List (Fq × Fq)
  IdleResidency : Fq
  DownResidency : Fq
  Frequency : Fq
deriving DecidableEq

/-- Per-cluster residency data (`internal.ClusterResidencyMetrics`). -/
structure ClusterResidencyMetrics where
  Name : Str
  Ctype : Str
  OnlinePercent : Fq
  HWActiveFreq : Fq
  HWActiveResidency : Fq
  HWActiveFreqResidency : List (Fq × Fq)
  IdleResidency : Fq
  DownResidency : Fq
deriving DecidableEq

/-- Singleton GPU residency data (`internal.GPUResidencyMetrics`). -/
structure GPUResidencyMetrics where
  HWActiveResidency : Fq
  HWActiveFreqResidency : List (Fq × Fq)
  SWRequestedStates : List (Str × Fq)
  SWStates : List (Str × Fq)
  IdleResidency : Fq
  PowerMilliwatts : Fq
deriving DecidableEq

/-- The zero-initialized GPU residency record `NewParser` installs. -/
def GPUResidencyMetrics.zero : GPUResidencyMetrics := ⟨0, [], [], [], 0, 0⟩

/-- Network activity rates (`internal.NetworkMetrics`). -/
structure NetworkMetrics where
  InPacketsPerSec : Fq
  InBytesPerSec : Fq
  OutPacketsPerSec : Fq
  OutBytesPerSec : Fq
deriving DecidableEq

/-- Disk activity rates (`internal.DiskMetrics`). -/
structure DiskMetrics where
  ReadOpsPerSec : Fq
  ReadBytesPerSec : Fq
  WriteOpsPerSec : Fq
  WriteBytesPerSec : Fq
deriving DecidableEq

/-- Per-CPU interrupt rates (`internal.InterruptMetrics`). -/
structure InterruptMetrics where
  CPUID : Nat
  TotalIRQ : Fq
  IPI : Fq
  TIMER : Fq
deriving DecidableEq

/-- One per-process GPU sample (`internal.GPUProcessSample`). -/
structure GPUProcessSample where
  PID : Nat
  Name : Str
  BusyPercent : Fq
  ActiveNanos : Nat
  FrequencyMHz : Fq
deriving DecidableEq

/-- One emitted snapshot (`Metrics`).  Nil pointers are `none`, nil slices
are `[]`. -/
structure Metrics where
  SystemSample : Option PM.SystemSample
  GPUProcessSamples : List GPUProcessSample
  Clusters : List ClusterInfo
  CPUResidencies : List CPUResidencyMetrics
  ClusterResidencies : List ClusterResidencyMetrics
  GPUResidency : Option GPUResidencyMetrics
  Network : Option NetworkMetrics
  Disk : Option DiskMetrics
  Interrupts : List InterruptMetrics
deriving DecidableEq

/-- The zero `Metrics` value `&Metrics{}`. -/
def Metrics.empty : Metrics := ⟨none, [], [], [], [], none, none, none, []⟩

/-- The parser configuration; only `SampleWindow` (a `time.Duration`, i.e.
a signed nanosecond count) participates in parsing.  The subprocess path
and argument list are I/O glue outside the parsing model. -/
structure Config where
  SampleWindow : Int
deriving DecidableEq

/-- The sample-window part of `normalizeConfig`: a non-positive window
becomes `time.Second`. -/
def normalizeSampleWindow (w : Int) : Int :=
  if w ≤ 0 then 1000000000 else w

/-- The parser/accumulator state (`Parser`).  `gpuResidency` is a plain
record because `NewParser` always installs a non-nil pointer and nothing
ever sets it to nil; `processSamples` is untouched by `ParseLine` and
omitted. -/
structure Parser where
  config : Config
  system : SystemSample
  frequencyMHz : Fq
  clusterInfo : List (Str × ClusterInfo)
  cpuResidencies : List (Nat × CPUResidencyMetrics)
  clusterResidencies : List (Str × ClusterResidencyMetrics)
  networkInfo : Option NetworkMetrics
  diskInfo : Option DiskMetrics
  interruptInfo : List (Nat × InterruptMetrics)
  gpuResidency : GPUResidencyMetrics
deriving DecidableEq

/-- `NewParser`: normalized configuration, empty maps, zeroed accumulator
records. -/
def NewParser (cfg : Config) : Parser :=
  ⟨⟨normalizeSampleWindow cfg.SampleWindow⟩, SystemSample.zero, 0, [], [], [],
    none, none, [], GPUResidencyMetrics.zero⟩

/-- A parser built from the zero configuration, as `NewParser(Config{})`. -/
def freshParser : Parser := NewParser ⟨0⟩

/-- Association-list lookup (`m[k]`). -/
def lookupA {κ α : Type} [DecidableEq κ] : List (κ × α) → κ → Option α
  | [], _ => none
  | (k', v) :: rest, k => if k' = k then some v else lookupA rest k

/-- Association-list store (`m[k] = v`): replace in place, else append. -/
def setA {κ α : Type} [DecidableEq κ] : List (κ × α) → κ → α → List (κ × α)
  | [], k, v => [(k, v)]
  | (k', v') :: rest, k, v =>
    if k' = k then (k, v) :: rest else (k', v') :: setA rest k v

/-- Key set of an association list. -/
def keysA {κ α : Type} (l : List (κ × α)) : List κ := l.map Prod.fst

/-- `strings.Split(s, sep)` for a single-character separator. -/
def splitOnChar (sep : Char) : Str → List Str
  | [] => [[]]
  | c :: rest =>
    let r := splitOnChar sep rest
    if c == sep then [] :: r
    else
      match r with
      | [] => [[c]]
      | h :: t => (c :: h) :: t

/-- `strings.Trim(s, cutset)`: drop cutset characters from both ends. -/
def trimBothChars (cutset : List Char) (s : Str) : Str :=
  ((s.dropWhile (cutset.contains ·)).reverse.dropWhile (cutset.contains ·)).reverse

/-- `strings.TrimRight(s, cutset)`. -/
def trimRightChars (cutset : List Char) (s : Str) : Str :=
  (s.reverse.dropWhile (cutset.contains ·)).reverse

/-- `parseFreqResidency`: fold every `(\d+) MHz: +([\d.]+)%` pair whose two
captures parse into the frequency→percent map; a later occurrence of the
same frequency overwrites the earlier one. -/
def parseFreqResidency (freqDataStr : Str) : List (Fq × Fq) :=
  (findAllFreqPairs freqDataStr.length freqDataStr).foldl
    (fun acc fp =>
      match parseFloatQ? fp.1, parseFloatQ? fp.2 with
      | some f, some pct => setA acc f pct
      | _, _ => acc)
    []

/-- The positional three-token loop of `parseGPUStates`: consume
`(name, ":", "value%")` groups; names not starting with `P` and values
that fail to parse are skipped. -/
def gpuStatesLoop : List Str → List (Str × Fq) → List (Str × Fq)
  | p0 :: _ :: p2 :: rest, acc =>
    let stateName := trimBothChars [':', ' '] p0
    let acc' :=
      if leadsWith ['P'] stateName then
        match parseFloatQ? (trimRightChars ['%'] p2) with
        | some v => setA acc stateName v
        | none => acc
      else acc
    gpuStatesLoop rest acc'
  | _, acc => acc

/-- `parseGPUStates`: split the parenthetical body on single spaces and
run the three-token loop. -/
def parseGPUStates (stateStr : Str) : List (Str × Fq) :=
  gpuStatesLoop (splitOnChar ' ' stateStr) []

/-- `CalculateTotalActive`: sum of the residency percentages. -/
def CalculateTotalActive (residencyMap : List (Fq × Fq)) : Fq :=
  residencyMap.foldl (fun total kv => total + kv.2) 0

/-- `ensureCluster`: return the existing entry, or create, register and
return a new one whose category is Efficiency exactly when the uppercased
name starts with `E-`. -/
def ensureCluster (p : Parser) (name : Str) : Parser × ClusterInfo :=
  match lookupA p.clusterInfo name with
  | some cluster => (p, cluster)
  | none =>
    let clusterType :=
      if leadsWith (strL "E-") (strToUpper name) then strL "Efficiency"
      else strL "Performance"
    let cluster : ClusterInfo := ⟨name, clusterType, 0, 0⟩
    ({ p with clusterInfo := setA p.clusterInfo name cluster }, cluster)

/-- `ensureCPUResidency`: return the existing entry or register a
zero-initialized one for the CPU id. -/
def ensureCPUResidency (p : Parser) (cpuID : Nat) : Parser × CPUResidencyMetrics :=
  match lookupA p.cpuResidencies cpuID with
  | some cpu => (p, cpu)
  | none =>
    let cpu : CPUResidencyMetrics := ⟨cpuID, [], 0, 0, 0⟩
    ({ p with cpuResidencies := setA p.cpuResidencies cpuID cpu }, cpu)

/-- `ensureClusterResidency`: return the existing entry or register a
zero-initialized one for the cluster name. -/
def ensureClusterResidency (p : Parser) (name : Str) : Parser × ClusterResidencyMetrics :=
  match lookupA p.clusterResidencies name with
  | some cluster => (p, cluster)
  | none =>
    let cluster : ClusterResidencyMetrics := ⟨name, [], 0, 0, 0, [], 0, 0⟩
    ({ p with clusterResidencies := setA p.clusterResidencies name cluster }, cluster)

/-- `ensureInterruptInfo`: return the existing entry or register a
zero-initialized one for the CPU id. -/
def ensureInterruptInfo (p : Parser) (cpuID : Nat) : Parser × InterruptMetrics :=
  match lookupA p.interruptInfo cpuID with
  | some interrupt => (p, interrupt)
  | none =>
    let interrupt : InterruptMetrics := ⟨cpuID, 0, 0, 0⟩
    ({ p with interruptInfo := setA p.interruptInfo cpuID interrupt }, interrupt)

/-- `updateClusterInfo`: cluster online percent, else cluster HW active
frequency.  The Go `ParseFloat` error is discarded. -/
def updateClusterInfo (p : Parser) (line : Str) : Parser :=
  match searchM clusterOnlineAt line with
  | some (g1, numStr) =>
    let name := g1 ++ strL "-Cluster"
    let onlinePercent := parseFloatOr0 numStr
    let pr := ensureCluster p name
    { pr.1 with clusterInfo := setA pr.1.clusterInfo name { pr.2 with OnlinePercent := onlinePercent } }
  | none =>
    match searchM clusterHWFreqAt line with
    | some (g1, numStr) =>
      let name := g1 ++ strL "-Cluster"
      let freqMHz := parseFloatOr0 numStr
      let pr := ensureCluster p name
      { pr.1 with clusterInfo := setA pr.1.clusterInfo name { pr.2 with HWActiveFreq := freqMHz } }
    | none => p

/-- `clusterSnapshot`'s name order (`sort.Slice` by `Name <`). -/
def strLt : Str → Str → Bool
  | [], [] => false
  | [], _ :: _ => true
  | _ :: _, [] => false
  | a :: as, b :: bs => if a < b then true else if b < a then false else strLt as bs

/-- Insertion step of the name sort. -/
def insertByName (c : ClusterInfo) : List ClusterInfo → List ClusterInfo
  | [] => [c]
  | d :: rest => if strLt c.Name d.Name then c :: d :: rest else d :: insertByName c rest

/-- Sort cluster values by name. -/
def sortClusters (l : List ClusterInfo) : List ClusterInfo := l.foldr insertByName []

/-- `clusterSnapshot`: nil for an empty map, else the values sorted by
name. -/
def clusterSnapshot (p : Parser) : List ClusterInfo :=
  if p.clusterInfo.isEmpty then [] else sortClusters (p.clusterInfo.map Prod.snd)

/-- `updateCPUInfo`: per-CPU frequency, interrupt-header sighting, active
residency (with the parenthesized frequency map), idle residency, down
residency, or the cluster HW-active-residency line.  `Atoi` errors on the
`\d+` captures are discarded by the Go code (`cpuID, _ := ...`), so the
digit value is used directly. -/
def updateCPUInfo (p : Parser) (line : Str) : Parser :=
  match searchM cpuFreqAt line with
  | some (idStr, freqStr) =>
    let cpuID := digitsToNat idStr
    let freq := parseFloatOr0 freqStr
    let pr := ensureCPUResidency p cpuID
    { pr.1 with cpuResidencies := setA pr.1.cpuResidencies cpuID { pr.2 with Frequency := freq } }
  | none =>
  match searchM interruptAt line with
  | some idStr => (ensureCPUResidency p (digitsToNat idStr)).1
  | none =>
  match searchM cpuActiveAt line with
  | some (idStr, _) =>
    let cpuID := digitsToNat idStr
    let pr := ensureCPUResidency p cpuID
    match firstIdx ['('] line with
    | some openParenIdx =>
      let freqDataStr := trimRightChars [')'] (line.drop (openParenIdx + 1))
      { pr.1 with cpuResidencies := setA pr.1.cpuResidencies cpuID { pr.2 with ActiveResidency := parseFreqResidency freqDataStr } }
    | none => pr.1
  | none =>
  match searchM cpuIdleAt line with
  | some (idStr, pctStr) =>
    let cpuID := digitsToNat idStr
    let idlePercent := parseFloatOr0 pctStr
    let pr := ensureCPUResidency p cpuID
    { pr.1 with cpuResidencies := setA pr.1.cpuResidencies cpuID { pr.2 with IdleResidency := idlePercent } }
  | none =>
  match searchM cpuDownAt line with
  | some (idStr, pctStr) =>
    let cpuID := digitsToNat idStr
    let downPercent := parseFloatOr0 pctStr
    let pr := ensureCPUResidency p cpuID
    { pr.1 with cpuResidencies := setA pr.1.cpuResidencies cpuID { pr.2 with DownResidency := downPercent } }
  | none =>
  if containsSub (strL "-Cluster HW active residency:") line then
    if 2 ≤ (splitOnChar ':' line).length then
      let clusterName := trimSpace ((splitOnChar ' ' line).headI)
      let p1 :=
        match parseTrailingValue line (strL "%") with
        | (val, true) =>
          let pr := ensureClusterResidency p clusterName
          { pr.1 with clusterResidencies := setA pr.1.clusterResidencies clusterName { pr.2 with HWActiveResidency := val } }
        | (_, false) => p
      match firstIdx ['('] line with
      | some openParenIdx =>
        let freqDataStr := trimRightChars [')'] (line.drop (openParenIdx + 1))
        let qr := ensureClusterResidency p1 clusterName
        { qr.1 with clusterResidencies := setA qr.1.clusterResidencies clusterName { qr.2 with HWActiveFreqResidency := parseFreqResidency freqDataStr } }
      | none => p1
    else p
  else p

/-- `updateNetworkInfo`: outgoing then incoming packet/byte rates; the
record is allocated on first data and both fields of a pair are stored
only when both captures parse. -/
def updateNetworkInfo (p : Parser) (line : Str) : Parser :=
  let p1 :=
    match searchM networkOutAt line with
    | some (pktStr, byteStr) =>
      match parseFloatQ? pktStr, parseFloatQ? byteStr with
      | some outPackets, some outBytes =>
        let n := p.networkInfo.getD ⟨0, 0, 0, 0⟩
        { p with networkInfo := some { n with OutPacketsPerSec := outPackets, OutBytesPerSec := outBytes } }
      | _, _ => p
    | none => p
  match searchM networkInAt line with
  | some (pktStr, byteStr) =>
    match parseFloatQ? pktStr, parseFloatQ? byteStr with
    | some inPackets, some inBytes =>
      let n := p1.networkInfo.getD ⟨0, 0, 0, 0⟩
      { p1 with networkInfo := some { n with InPacketsPerSec := inPackets, InBytesPerSec := inBytes } }
    | _, _ => p1
  | none => p1

/-- `updateDiskInfo`: read then write ops/byte rates; KBytes/s are scaled
by 1024 to bytes/s at ingestion. -/
def updateDiskInfo (p : Parser) (line : Str) : Parser :=
  let p1 :=
    match searchM diskReadAt line with
    | some (opsStr, byteStr) =>
      match parseFloatQ? opsStr, parseFloatQ? byteStr with
      | some readOps, some readBytes =>
        let d := p.diskInfo.getD ⟨0, 0, 0, 0⟩
        { p with diskInfo := some { d with ReadOpsPerSec := readOps, ReadBytesPerSec := readBytes * 1024 } }
      | _, _ => p
    | none => p
  match searchM diskWriteAt line with
  | some (opsStr, byteStr) =>
    match parseFloatQ? opsStr, parseFloatQ? byteStr with
    | some writeOps, some writeBytes =>
      let d := p1.diskInfo.getD ⟨0, 0, 0, 0⟩
      { p1 with diskInfo := some { d with WriteOpsPerSec := writeOps, WriteBytesPerSec := writeBytes * 1024 } }
    | _, _ => p1
  | none => p1

/-- Attach a value to the first interrupt entry whose selected field is
still zero (the Go code ranges over the map and breaks at the first hit;
map iteration order is unspecified in Go — insertion order is used here,
which is the order interrupt blocks arrive in). -/
def setFirstZeroBy (get : InterruptMetrics → Fq) (set : InterruptMetrics → Fq → InterruptMetrics)
    (v : Fq) : List (Nat × InterruptMetrics) → List (Nat × InterruptMetrics)
  | [] => []
  | (k, it) :: rest =>
    if get it = 0 then (k, set it v) :: rest
    else (k, it) :: setFirstZeroBy get set v rest

/-- `updateInterruptInfo`: CPU header, total IRQ, or IPI/TIMER sub-lines. -/
def updateInterruptInfo (p : Parser) (line : Str) : Parser :=
  match searchM interruptAt line with
  | some idStr => (ensureInterruptInfo p (digitsToNat idStr)).1
  | none =>
  match searchM interruptTotalAt line with
  | some numStr =>
    let totalIRQ := parseFloatOr0 numStr
    { p with interruptInfo :=
        setFirstZeroBy (fun it => it.TotalIRQ) (fun it v => { it with TotalIRQ := v }) totalIRQ p.interruptInfo }
  | none =>
  match searchM ipiTimerAt line with
  | some (which, numStr) =>
    let value := parseFloatOr0 numStr
    if which = strL "IPI" then
      { p with interruptInfo :=
          setFirstZeroBy (fun it => it.IPI) (fun it v => { it with IPI := v }) value p.interruptInfo }
    else
      { p with interruptInfo :=
          setFirstZeroBy (fun it => it.TIMER) (fun it v => { it with TIMER := v }) value p.interruptInfo }
  | none => p

/-- `updateGPUResidencyInfo`: GPU HW active frequency (stored, per the
source comment, temporarily in `PowerMilliwatts`), HW active residency
with its frequency map, idle residency, SW state maps, or GPU power. -/
def updateGPUResidencyInfo (p : Parser) (line : Str) : Parser :=
  match searchM gpuFreqAt line with
  | some numStr =>
    let freq := parseFloatOr0 numStr
    { p with gpuResidency := { p.gpuResidency with PowerMilliwatts := freq } }
  | none =>
  match searchM gpuHwActiveResidencyAt line with
  | some numStr =>
    let residency := parseFloatOr0 numStr
    let g1 := { p.gpuResidency with HWActiveResidency := residency }
    let g2 :=
      match firstIdx ['('] line with
      | some openParenIdx =>
        let freqDataStr := trimRightChars [')'] (line.drop (openParenIdx + 1))
        { g1 with HWActiveFreqResidency := parseFreqResidency freqDataStr }
      | none => g1
    { p with gpuResidency := g2 }
  | none =>
  match searchM gpuIdleResidencyAt line with
  | some numStr =>
    let residency := parseFloatOr0 numStr
    { p with gpuResidency := { p.gpuResidency with IdleResidency := residency } }
  | none =>
  match searchM gpuSWStateAt line with
  | some stateStr =>
    let states := parseGPUStates stateStr
    if containsSub (strL "requested state") line then
      { p with gpuResidency := { p.gpuResidency with SWRequestedStates := states } }
    else
      { p with gpuResidency := { p.gpuResidency with SWStates := states } }
  | none =>
  if hasAll (strToLower line) [strL "gpu", strL "power"] then
    match parseTrailingValue line (strL "w") with
    | (val, true) => { p with gpuResidency := { p.gpuResidency with PowerMilliwatts := val * 1000 } }
    | (_, false) =>
      match parseTrailingValue line (strL "mW") with
      | (val, true) => { p with gpuResidency := { p.gpuResidency with PowerMilliwatts := val } }
      | (_, false) => p
  else p

/-- `updateBatteryInfo`: the battery percent-charge line. -/
def updateBatteryInfo (p : Parser) (line : Str) : Parser :=
  match searchM batteryAt line with
  | some numStr =>
    let battery := parseFloatOr0 numStr
    { p with system := { p.system with BatteryPercent := battery } }
  | none => p

/-- The scalar-gauge blocks of `parseSystemMetrics`, in source order.  The
method only ever writes `p.system` and `p.frequencyMHz` plus the `updated`
flag, so those three are threaded explicitly. -/
def sysBlocks (line lower : Str) (sys0 : SystemSample) (freq0 : Fq) :
    SystemSample × Fq × Bool :=
  let sys := sys0
  let freq := freq0
  let updated := false
  -- CPU power (watts, else milliwatts)
  let (sys, updated) :=
    if hasAll lower [strL "cpu", strL "power"] && hasNone lower [strL "gpu"] then
      match parseTrailingValue line (strL "w") with
      | (val, true) => ({ sys with CPUPowerWatts := val }, true)
      | (_, false) =>
        match parseTrailingValue line (strL "mW") with
        | (val, true) => ({ sys with CPUPowerWatts := val / 1000 }, true)
        | (_, false) => (sys, updated)
    else (sys, updated)
  -- CPU frequency
  let (sys, updated) :=
    if hasAll lower [strL "cpu", strL "frequency"] && hasNone lower [strL "gpu"] then
      match parseTrailingValue line (strL "mhz") with
      | (val, true) => ({ sys with CPUFrequencyMHz := val }, true)
      | (_, false) => (sys, updated)
    else (sys, updated)
  -- GPU busy
  let (sys, updated) :=
    if hasAll lower [strL "gpu", strL "busy"] then
      match parseTrailingValue line (strL "%") with
      | (val, true) => ({ sys with GPUBusyPercent := val }, true)
      | (_, false) => (sys, updated)
    else (sys, updated)
  -- GPU HW active residency (leading value)
  let (sys, updated) :=
    if hasAll lower [strL "gpu", strL "hw active residency"] then
      match parseLeadingValueAfterColon line (strL "%") with
      | (val, true) => ({ sys with GPUBusyPercent := val }, true)
      | (_, false) => (sys, updated)
    else (sys, updated)
  -- GPU idle residency: derive busy only when still zero
  let (sys, updated) :=
    if hasAll lower [strL "gpu", strL "idle residency"] then
      match parseLeadingValueAfterColon line (strL "%") with
      | (val, true) =>
        (if sys.GPUBusyPercent = 0 then { sys with GPUBusyPercent := clampPercent (100 - val) }
         else sys, true)
      | (_, false) => (sys, updated)
    else (sys, updated)
  -- ANE busy
  let (sys, updated) :=
    if hasAll lower [strL "ane", strL "busy"] then
      match parseTrailingValue line (strL "%") with
      | (val, true) => ({ sys with ANEBusyPercent := val }, true)
      | (_, false) => (sys, updated)
    else (sys, updated)
  -- ANE power
  let (sys, updated) :=
    if hasAll lower [strL "ane", strL "power"] then
      match parseTrailingValue line (strL "w") with
      | (val, true) => ({ sys with ANEPowerWatts := val }, true)
      | (_, false) =>
        match parseTrailingValue line (strL "mW") with
        | (val, true) => ({ sys with ANEPowerWatts := val / 1000 }, true)
        | (_, false) => (sys, updated)
    else (sys, updated)
  -- GPU power
  let (sys, updated) :=
    if hasAll lower [strL "gpu", strL "power"] then
      match parseTrailingValue line (strL "w") with
      | (val, true) => ({ sys with GPUPowerWatts := val }, true)
      | (_, false) =>
        match parseTrailingValue line (strL "mW") with
        | (val, true) => ({ sys with GPUPowerWatts := val / 1000 }, true)
        | (_, false) => (sys, updated)
    else (sys, updated)
  -- DRAM power
  let (sys, updated) :=
    if hasAll lower [strL "dram", strL "power"] then
      match parseTrailingValue line (strL "w") with
      | (val, true) => ({ sys with DRAMPowerWatts := val }, true)
      | (_, false) => (sys, updated)
    else (sys, updated)
  -- GPU frequency: cached and recorded
  let (sys, freq, updated) :=
    if hasAll lower [strL "gpu", strL "frequency"] then
      match parseTrailingValue line (strL "mhz") with
      | (val, true) => ({ sys with GPUFrequencyMHz := val }, val, true)
      | (_, false) => (sys, freq, updated)
    else (sys, freq, updated)
  -- GPU temperature
  let (sys, updated) :=
    if hasAll lower [strL "gpu", strL "temperature"] then
      match parseTrailingValue line (strL "c") with
      | (val, true) => ({ sys with GPUTemperatureC := val }, true)
      | (_, false) => (sys, updated)
    else (sys, updated)
  -- CPU temperature
  let (sys, updated) :=
    if hasAll lower [strL "cpu", strL "temperature"] then
      match parseTrailingValue line (strL "c") with
      | (val, true) => ({ sys with CPUTemperatureC := val }, true)
      | (_, false) => (sys, updated)
    else (sys, updated)
  -- GPU die/junction temperature spellings
  let (sys, updated) :=
    if hasAll lower [strL "gpu", strL "die", strL "temp"] ||
       hasAll lower [strL "gpu", strL "junction", strL "temp"] then
      match parseTrailingValue line (strL "c") with
      | (val, true) => ({ sys with GPUTemperatureC := val }, true)
      | (_, false) => (sys, updated)
    else (sys, updated)
  -- CPU die/junction/package temperature spellings
  let (sys, updated) :=
    if hasAll lower [strL "cpu", strL "die", strL "temp"] ||
       hasAll lower [strL "cpu", strL "junction", strL "temp"] ||
       hasAll lower [strL "package", strL "temp"] then
      match parseTrailingValue line (strL "c") with
      | (val, true) => ({ sys with CPUTemperatureC := val }, true)
      | (_, false) => (sys, updated)
    else (sys, updated)
  -- unlabeled temperature sensors: CPU first, then GPU
  let (sys, updated) :=
    if hasAll lower [strL "temperature"] &&
       (hasAny lower [strL "die", strL "junction", strL "package"] ||
        containsSub (strL "sensor") lower) then
      match parseTrailingValue line (strL "c") with
      | (val, true) =>
        (if sys.CPUTemperatureC = 0 then { sys with CPUTemperatureC := val }
         else if sys.GPUTemperatureC = 0 then { sys with GPUTemperatureC := val }
         else sys, true)
      | (_, false) => (sys, updated)
    else (sys, updated)
  -- junction temperature labelled cpu/gpu
  let (sys, updated) :=
    if hasAll lower [strL "junction", strL "temperature"] &&
       hasAny lower [strL "cpu", strL "gpu"] then
      match parseTrailingValue line (strL "c") with
      | (val, true) =>
        (if hasAny lower [strL "cpu", strL "package"] then { sys with CPUTemperatureC := val }
         else if hasAny lower [strL "gpu"] then { sys with GPUTemperatureC := val }
         else sys, true)
      | (_, false) => (sys, updated)
    else (sys, updated)
  -- die temperature patterns
  let (sys, updated) :=
    if hasAll lower [strL "die", strL "temperature"] then
      match parseTrailingValue line (strL "c") with
      | (val, true) =>
        (if hasAny lower [strL "cpu", strL "package"] then { sys with CPUTemperatureC := val }
         else if hasAny lower [strL "gpu"] then { sys with GPUTemperatureC := val }
         else sys, true)
      | (_, false) => (sys, updated)
    else (sys, updated)
  -- any remaining temperature mention
  let (sys, updated) :=
    if containsSub (strL "temperature") lower && containsSub (strL "c") lower then
      match parseTrailingValue line (strL "c") with
      | (val, true) =>
        (if hasAny lower [strL "cpu", strL "package", strL "processor"] then
           { sys with CPUTemperatureC := val }
         else if hasAny lower [strL "gpu", strL "graphics"] then
           { sys with GPUTemperatureC := val }
         else { sys with CPUTemperatureC := val, GPUTemperatureC := val }, true)
      | (_, false) => (sys, updated)
    else (sys, updated)
  (sys, freq, updated)

/-- The snapshot `parseSystemMetrics` returns when a scalar block fired.
Its GPU-residency guard, unlike `buildMetrics`, does not consult
`SWStates`. -/
def systemSnapshot (p : Parser) : Metrics :=
  { SystemSample := some p.system
    GPUProcessSamples := []
    Clusters := clusterSnapshot p
    CPUResidencies := p.cpuResidencies.map Prod.snd
    ClusterResidencies := p.clusterResidencies.map Prod.snd
    GPUResidency :=
      if 0 < p.gpuResidency.HWActiveResidency ∨ 0 < p.gpuResidency.IdleResidency ∨
         p.gpuResidency.HWActiveFreqResidency ≠ [] then some p.gpuResidency
      else none
    Network := p.networkInfo
    Disk := p.diskInfo
    Interrupts := p.interruptInfo.map Prod.snd }

/-- `parseSystemMetrics`: run the scalar blocks; if none fired, return no
snapshot, otherwise a snapshot carrying the current accumulator state. -/
def parseSystemMetrics (p : Parser) (line lower : Str) : Parser × Option Metrics :=
  let r := sysBlocks line lower p.system p.frequencyMHz
  let p1 := { p with system := r.1, frequencyMHz := r.2.1 }
  if r.2.2 then (p1, some (systemSnapshot p1)) else (p1, none)

/-- `buildMetrics`: the full snapshot for the accumulate-and-emit path;
its GPU-residency guard also consults `SWStates`. -/
def buildMetrics (p : Parser) : Metrics :=
  { SystemSample := some p.system
    GPUProcessSamples := []
    Clusters := clusterSnapshot p
    CPUResidencies := p.cpuResidencies.map Prod.snd
    ClusterResidencies := p.clusterResidencies.map Prod.snd
    GPUResidency :=
      if 0 < p.gpuResidency.HWActiveResidency ∨ 0 < p.gpuResidency.IdleResidency ∨
         p.gpuResidency.HWActiveFreqResidency ≠ [] ∨ p.gpuResidency.SWStates ≠ [] then
        some p.gpuResidency
      else none
    Network := p.networkInfo
    Disk := p.diskInfo
    Interrupts := p.interruptInfo.map Prod.snd }

/-- `parseGPUProcessLine`: on a `procLineRegex` match with a well-formed
pid and duration, a standalone snapshot holding exactly one
`GPUProcessSample`; the error result is nil at every return site. -/
def parseGPUProcessLine (p : Parser) (line : Str) : Option Metrics × Option Unit :=
  match procLineMatch line with
  | none => (none, none)
  | some m =>
    match atoiNat? m.pidStr with
    | none => (none, none)
    | some pid =>
      let rawName := trimSpace m.name
      match parseFloatQ? m.valueStr with
      | none => (none, none)
      | some value =>
        let activeNs := convertToNanoseconds value m.unit
        let busy := deriveBusyPercent activeNs (m.percent.getD []) p.config.SampleWindow
        let sample : GPUProcessSample :=
          ⟨pid, trimBothChars ['(', ')'] rawName, busy, activeNs, p.frequencyMHz⟩
        (some { Metrics.empty with GPUProcessSamples := [sample] }, none)

/-- The seven updater calls of `ParseLine`, in source order. -/
def runUpdaters (p : Parser) (line : Str) : Parser :=
  updateBatteryInfo
    (updateGPUResidencyInfo
      (updateInterruptInfo
        (updateDiskInfo
          (updateNetworkInfo
            (updateCPUInfo
              (updateClusterInfo p line) line) line) line) line) line) line

/-- The six section-banner substrings `ParseLine` consumes as no-ops. -/
def sectionBanners : List Str :=
  [strL "**** Processor usage ****",
   strL "**** Network activity ****",
   strL "**** Disk activity ****",
   strL "****  Interrupt distribution ****",
   strL "**** GPU usage ****",
   strL "**** Battery and backlight usage ****"]

/-- `ParseLine`: trim and reject blank/comment/section lines; run every
updater; compute the changed flags (scalar sample by before/after
comparison, maps by non-emptiness); answer a GPU-process line with its
standalone snapshot; otherwise run the scalar blocks and emit the full
snapshot when any flag is set, else whatever the scalar blocks produced.
The error component mirrors the Go error return, which is nil on every
content path. -/
def ParseLine (p : Parser) (input : Str) : Parser × Option Metrics × Option Unit :=
  let trimmed := trimSpace input
  if trimmed.isEmpty || leadsWith (strL "--") trimmed then (p, none, none)
  else
    let line := trimmed
    if sectionBanners.any (fun b => containsSub b line) then (p, none, none)
    else
      let prevNetworkInfoWasNil := p.networkInfo.isNone
      let prevDiskInfoWasNil := p.diskInfo.isNone
      let prevSystem := p.system
      let p7 := runUpdaters p line
      let systemChanged := decide (p7.system ≠ prevSystem)
      let networkChanged :=
        match p7.networkInfo with
        | none => false
        | some n =>
          prevNetworkInfoWasNil || decide (0 < n.InPacketsPerSec) || decide (0 < n.OutPacketsPerSec)
      let diskChanged :=
        match p7.diskInfo with
        | none => false
        | some d =>
          prevDiskInfoWasNil || decide (0 < d.ReadOpsPerSec) || decide (0 < d.WriteOpsPerSec)
      let clusterChanged := !p7.clusterInfo.isEmpty
      let cpuResidencyChanged := !p7.cpuResidencies.isEmpty
      let clusterResidencyChanged := !p7.clusterResidencies.isEmpty
      let gpuResidencyChanged :=
        decide (0 < p7.gpuResidency.HWActiveResidency) ||
        decide (0 < p7.gpuResidency.IdleResidency) ||
        !p7.gpuResidency.HWActiveFreqResidency.isEmpty ||
        !p7.gpuResidency.SWStates.isEmpty
      match parseGPUProcessLine p7 line with
      | (_, some e) => (p7, none, some e)
      | (some m, none) => (p7, some m, none)
      | (none, none) =>
        let lower := strToLower line
        let r := parseSystemMetrics p7 line lower
        if systemChanged || networkChanged || diskChanged || clusterChanged ||
           cpuResidencyChanged || clusterResidencyChanged || gpuResidencyChanged then
          (r.1, some (buildMetrics r.1), none)
        else (r.1, r.2, none)

/-! ### Association-list lemmas -/

theorem keysA_setA {κ α : Type} [DecidableEq κ] (l : List (κ × α)) (k : κ) (v : α) (k' : κ)
    (h : k' ∈ keysA l) : k' ∈ keysA (setA l k v) := by
  induction l with
  | nil => simp [keysA] at h
  | cons hd tl ih =>
    obtain ⟨k0, v0⟩ := hd
    simp only [setA]
    split
    · rename_i hk
      simp only [keysA, List.map_cons, List.mem_cons] at h ⊢
      rcases h with h | h
      · exact Or.inl (h.trans hk)
      · exact Or.inr h
    · simp only [keysA, List.map_cons, List.mem_cons] at h ⊢
      rcases h with h | h
      · exact Or.inl h
      · exact Or.inr (ih h)

theorem keysA_setA_self {κ α : Type} [DecidableEq κ] (l : List (κ × α)) (k : κ) (v : α) :
    k ∈ keysA (setA l k v) := by
  induction l with
  | nil => simp [setA, keysA]
  | cons hd tl ih =>
    obtain ⟨k0, v0⟩ := hd
    simp only [setA]
    split
    · simp [keysA]
    · simp only [keysA, List.map_cons, List.mem_cons]
      exact Or.inr ih

theorem lookupA_setA_self {κ α : Type} [DecidableEq κ] (l : List (κ × α)) (k : κ) (v : α) :
    lookupA (setA l k v) k = some v := by
  induction l with
  | nil => simp [setA, lookupA]
  | cons hd tl ih =>
    obtain ⟨k0, v0⟩ := hd
    simp only [setA]
    split
    · simp [lookupA]
    · rename_i hk
      simpa [lookupA, hk] using ih

theorem keysA_setFirstZeroBy (get : InterruptMetrics → Fq)
    (set : InterruptMetrics → Fq → InterruptMetrics) (v : Fq)
    (l : List (Nat × InterruptMetrics)) :
    keysA (setFirstZeroBy get set v l) = keysA l := by
  induction l with
  | nil => rfl
  | cons hd tl ih =>
    obtain ⟨k0, it0⟩ := hd
    simp only [setFirstZeroBy]
    split
    · rfl
    · simpa [keysA] using ih

/-! ### Which parser fields each helper touches -/

/-! ### Untouched-field projections of the ensure accessors -/

@[simp]
theorem ensureCluster_config (p : Parser) (name : Str) :
    (ensureCluster p name).1.config = p.config := by
  unfold ensureCluster
  split <;> rfl

@[simp]
theorem ensureCluster_frequencyMHz (p : Parser) (name : Str) :
    (ensureCluster p name).1.frequencyMHz = p.frequencyMHz := by
  unfold ensureCluster
  split <;> rfl

@[simp]
theorem ensureCluster_system (p : Parser) (name : Str) :
    (ensureCluster p name).1.system = p.system := by
  unfold ensureCluster
  split <;> rfl

@[simp]
theorem ensureCluster_networkInfo (p : Parser) (name : Str) :
    (ensureCluster p name).1.networkInfo = p.networkInfo := by
  unfold ensureCluster
  split <;> rfl

@[simp]
theorem ensureCluster_diskInfo (p : Parser) (name : Str) :
    (ensureCluster p name).1.diskInfo = p.diskInfo := by
  unfold ensureCluster
  split <;> rfl

@[simp]
theorem ensureCluster_gpuResidency (p : Parser) (name : Str) :
    (ensureCluster p name).1.gpuResidency = p.gpuResidency := by
  unfold ensureCluster
  split <;> rfl

@[simp]
theorem ensureCluster_cpuResidencies (p : Parser) (name : Str) :
    (ensureCluster p name).1.cpuResidencies = p.cpuResidencies := by
  unfold ensureCluster
  split <;> rfl

@[simp]
theorem ensureCluster_clusterResidencies (p : Parser) (name : Str) :
    (ensureCluster p name).1.clusterResidencies = p.clusterResidencies := by
  unfold ensureCluster
  split <;> rfl

@[simp]
theorem ensureCluster_interruptInfo (p : Parser) (name : Str) :
    (ensureCluster p name).1.interruptInfo = p.interruptInfo := by
  unfold ensureCluster
  split <;> rfl

@[simp]
theorem ensureCPUResidency_config (p : Parser) (cpuID : Nat) :
    (ensureCPUResidency p cpuID).1.config = p.config := by
  unfold ensureCPUResidency
  split <;> rfl

@[simp]
theorem ensureCPUResidency_frequencyMHz (p : Parser) (cpuID : Nat) :
    (ensureCPUResidency p cpuID).1.frequencyMHz = p.frequencyMHz := by
  unfold ensureCPUResidency
  split <;> rfl

@[simp]
theorem ensureCPUResidency_system (p : Parser) (cpuID : Nat) :
    (ensureCPUResidency p cpuID).1.system = p.system := by
  unfold ensureCPUResidency
  split <;> rfl

@[simp]
theorem ensureCPUResidency_networkInfo (p : Parser) (cpuID : Nat) :
    (ensureCPUResidency p cpuID).1.networkInfo = p.networkInfo := by
  unfold ensureCPUResidency
  split <;> rfl

@[simp]
theorem ensureCPUResidency_diskInfo (p : Parser) (cpuID : Nat) :
    (ensureCPUResidency p cpuID).1.diskInfo = p.diskInfo := by
  unfold ensureCPUResidency
  split <;> rfl

@[simp]
theorem ensureCPUResidency_gpuResidency (p : Parser) (cpuID : Nat) :
    (ensureCPUResidency p cpuID).1.gpuResidency = p.gpuResidency := by
  unfold ensureCPUResidency
  split <;> rfl

@[simp]
theorem ensureCPUResidency_clusterInfo (p : Parser) (cpuID : Nat) :
    (ensureCPUResidency p cpuID).1.clusterInfo = p.clusterInfo := by
  unfold ensureCPUResidency
  split <;> rfl

@[simp]
theorem ensureCPUResidency_clusterResidencies (p : Parser) (cpuID : Nat) :
    (ensureCPUResidency p cpuID).1.clusterResidencies = p.clusterResidencies := by
  unfold ensureCPUResidency
  split <;> rfl

@[simp]
theorem ensureCPUResidency_interruptInfo (p : Parser) (cpuID : Nat) :
    (ensureCPUResidency p cpuID).1.interruptInfo = p.interruptInfo := by
  unfold ensureCPUResidency
  split <;> rfl

@[simp]
theorem ensureClusterResidency_config (p : Parser) (name : Str) :
    (ensureClusterResidency p name).1.config = p.config := by
  unfold ensureClusterResidency
  split <;> rfl

@[simp]
theorem ensureClusterResidency_frequencyMHz (p : Parser) (name : Str) :
    (ensureClusterResidency p name).1.frequencyMHz = p.frequencyMHz := by
  unfold ensureClusterResidency
  split <;> rfl

@[simp]
theorem ensureClusterResidency_system (p : Parser) (name : Str) :
    (ensureClusterResidency p name).1.system = p.system := by
  unfold ensureClusterResidency
  split <;> rfl

@[simp]
theorem ensureClusterResidency_networkInfo (p : Parser) (name : Str) :
    (ensureClusterResidency p name).1.networkInfo = p.networkInfo := by
  unfold ensureClusterResidency
  split <;> rfl

@[simp]
theorem ensureClusterResidency_diskInfo (p : Parser) (name : Str) :
    (ensureClusterResidency p name).1.diskInfo = p.diskInfo := by
  unfold ensureClusterResidency
  split <;> rfl

@[simp]
theorem ensureClusterResidency_gpuResidency (p : Parser) (name : Str) :
    (ensureClusterResidency p name).1.gpuResidency = p.gpuResidency := by
  unfold ensureClusterResidency
  split <;> rfl

@[simp]
theorem ensureClusterResidency_clusterInfo (p : Parser) (name : Str) :
    (ensureClusterResidency p name).1.clusterInfo = p.clusterInfo := by
  unfold ensureClusterResidency
  split <;> rfl

@[simp]
theorem ensureClusterResidency_cpuResidencies (p : Parser) (name : Str) :
    (ensureClusterResidency p name).1.cpuResidencies = p.cpuResidencies := by
  unfold ensureClusterResidency
  split <;> rfl

@[simp]
theorem ensureClusterResidency_interruptInfo (p : Parser) (name : Str) :
    (ensureClusterResidency p name).1.interruptInfo = p.interruptInfo := by
  unfold ensureClusterResidency
  split <;> rfl

@[simp]
theorem ensureInterruptInfo_config (p : Parser) (cpuID : Nat) :
    (ensureInterruptInfo p cpuID).1.config = p.config := by
  unfold ensureInterruptInfo
  split <;> rfl

@[simp]
theorem ensureInterruptInfo_frequencyMHz (p : Parser) (cpuID : Nat) :
    (ensureInterruptInfo p cpuID).1.frequencyMHz = p.frequencyMHz := by
  unfold ensureInterruptInfo
  split <;> rfl

@[simp]
theorem ensureInterruptInfo_system (p : Parser) (cpuID : Nat) :
    (ensureInterruptInfo p cpuID).1.system = p.system := by
  unfold ensureInterruptInfo
  split <;> rfl

@[simp]
theorem ensureInterruptInfo_networkInfo (p : Parser) (cpuID : Nat) :
    (ensureInterruptInfo p cpuID).1.networkInfo = p.networkInfo := by
  unfold ensureInterruptInfo
  split <;> rfl

@[simp]
theorem ensureInterruptInfo_diskInfo (p : Parser) (cpuID : Nat) :
    (ensureInterruptInfo p cpuID).1.diskInfo = p.diskInfo := by
  unfold ensureInterruptInfo
  split <;> rfl

@[simp]
theorem ensureInterruptInfo_gpuResidency (p : Parser) (cpuID : Nat) :
    (ensureInterruptInfo p cpuID).1.gpuResidency = p.gpuResidency := by
  unfold ensureInterruptInfo
  split <;> rfl

@[simp]
theorem ensureInterruptInfo_clusterInfo (p : Parser) (cpuID : Nat) :
    (ensureInterruptInfo p cpuID).1.clusterInfo = p.clusterInfo := by
  unfold ensureInterruptInfo
  split <;> rfl

@[simp]
theorem ensureInterruptInfo_cpuResidencies (p : Parser) (cpuID : Nat) :
    (ensureInterruptInfo p cpuID).1.cpuResidencies = p.cpuResidencies := by
  unfold ensureInterruptInfo
  split <;> rfl

@[simp]
theorem ensureInterruptInfo_clusterResidencies (p : Parser) (cpuID : Nat) :
    (ensureInterruptInfo p cpuID).1.clusterResidencies = p.clusterResidencies := by
  unfold ensureInterruptInfo
  split <;> rfl

theorem ensureCluster_keys (p : Parser) (name : Str) (k : Str)
    (h : k ∈ keysA p.clusterInfo) : k ∈ keysA (ensureCluster p name).1.clusterInfo := by
  unfold ensureCluster
  split
  · exact h
  · exact keysA_setA _ _ _ _ h

theorem ensureCPUResidency_keys (p : Parser) (cpuID : Nat) (k : Nat)
    (h : k ∈ keysA p.cpuResidencies) : k ∈ keysA (ensureCPUResidency p cpuID).1.cpuResidencies := by
  unfold ensureCPUResidency
  split
  · exact h
  · exact keysA_setA _ _ _ _ h

theorem ensureClusterResidency_keys (p : Parser) (name : Str) (k : Str)
    (h : k ∈ keysA p.clusterResidencies) :
    k ∈ keysA (ensureClusterResidency p name).1.clusterResidencies := by
  unfold ensureClusterResidency
  split
  · exact h
  · exact keysA_setA _ _ _ _ h

theorem ensureInterruptInfo_keys (p : Parser) (cpuID : Nat) (k : Nat)
    (h : k ∈ keysA p.interruptInfo) : k ∈ keysA (ensureInterruptInfo p cpuID).1.interruptInfo := by
  unfold ensureInterruptInfo
  split
  · exact h
  · exact keysA_setA _ _ _ _ h

/-! ### Fields each updater leaves untouched -/

@[simp]
theorem updateClusterInfo_config (p : Parser) (line : Str) :
    (updateClusterInfo p line).config = p.config := by
  unfold updateClusterInfo
  repeat' split
  all_goals simp

@[simp]
theorem updateClusterInfo_frequencyMHz (p : Parser) (line : Str) :
    (updateClusterInfo p line).frequencyMHz = p.frequencyMHz := by
  unfold updateClusterInfo
  repeat' split
  all_goals simp

@[simp]
theorem updateClusterInfo_cpuResidencies (p : Parser) (line : Str) :
    (updateClusterInfo p line).cpuResidencies = p.cpuResidencies := by
  unfold updateClusterInfo
  repeat' split
  all_goals simp

@[simp]
theorem updateClusterInfo_clusterResidencies (p : Parser) (line : Str) :
    (updateClusterInfo p line).clusterResidencies = p.clusterResidencies := by
  unfold updateClusterInfo
  repeat' split
  all_goals simp

@[simp]
theorem updateClusterInfo_interruptInfo (p : Parser) (line : Str) :
    (updateClusterInfo p line).interruptInfo = p.interruptInfo := by
  unfold updateClusterInfo
  repeat' split
  all_goals simp

@[simp]
theorem updateCPUInfo_config (p : Parser) (line : Str) :
    (updateCPUInfo p line).config = p.config := by
  unfold updateCPUInfo
  repeat' split
  all_goals simp

@[simp]
theorem updateCPUInfo_frequencyMHz (p : Parser) (line : Str) :
    (updateCPUInfo p line).frequencyMHz = p.frequencyMHz := by
  unfold updateCPUInfo
  repeat' split
  all_goals simp

@[simp]
theorem updateCPUInfo_clusterInfo (p : Parser) (line : Str) :
    (updateCPUInfo p line).clusterInfo = p.clusterInfo := by
  unfold updateCPUInfo
  repeat' split
  all_goals simp

@[simp]
theorem updateCPUInfo_interruptInfo (p : Parser) (line : Str) :
    (updateCPUInfo p line).interruptInfo = p.interruptInfo := by
  unfold updateCPUInfo
  repeat' split
  all_goals simp

@[simp]
theorem updateNetworkInfo_config (p : Parser) (line : Str) :
    (updateNetworkInfo p line).config = p.config := by
  unfold updateNetworkInfo
  repeat' split
  all_goals simp

@[simp]
theorem updateNetworkInfo_frequencyMHz (p : Parser) (line : Str) :
    (updateNetworkInfo p line).frequencyMHz = p.frequencyMHz := by
  unfold updateNetworkInfo
  repeat' split
  all_goals simp

@[simp]
theorem updateNetworkInfo_clusterInfo (p : Parser) (line : Str) :
    (updateNetworkInfo p line).clusterInfo = p.clusterInfo := by
  unfold updateNetworkInfo
  repeat' split
  all_goals simp

@[simp]
theorem updateNetworkInfo_cpuResidencies (p : Parser) (line : Str) :
    (updateNetworkInfo p line).cpuResidencies = p.cpuResidencies := by
  unfold updateNetworkInfo
  repeat' split
  all_goals simp

@[simp]
theorem updateNetworkInfo_clusterResidencies (p : Parser) (line : Str) :
    (updateNetworkInfo p line).clusterResidencies = p.clusterResidencies := by
  unfold updateNetworkInfo
  repeat' split
  all_goals simp

@[simp]
theorem updateNetworkInfo_interruptInfo (p : Parser) (line : Str) :
    (updateNetworkInfo p line).interruptInfo = p.interruptInfo := by
  unfold updateNetworkInfo
  repeat' split
  all_goals simp

@[simp]
theorem updateDiskInfo_config (p : Parser) (line : Str) :
    (updateDiskInfo p line).config = p.config := by
  unfold updateDiskInfo
  repeat' split
  all_goals simp

@[simp]
theorem updateDiskInfo_frequencyMHz (p : Parser) (line : Str) :
    (updateDiskInfo p line).frequencyMHz = p.frequencyMHz := by
  unfold updateDiskInfo
  repeat' split
  all_goals simp

@[simp]
theorem updateDiskInfo_clusterInfo (p : Parser) (line : Str) :
    (updateDiskInfo p line).clusterInfo = p.clusterInfo := by
  unfold updateDiskInfo
  repeat' split
  all_goals simp

@[simp]
theorem updateDiskInfo_cpuResidencies (p : Parser) (line : Str) :
    (updateDiskInfo p line).cpuResidencies = p.cpuResidencies := by
  unfold updateDiskInfo
  repeat' split
  all_goals simp

@[simp]
theorem updateDiskInfo_clusterResidencies (p : Parser) (line : Str) :
    (updateDiskInfo p line).clusterResidencies = p.clusterResidencies := by
  unfold updateDiskInfo
  repeat' split
  all_goals simp

@[simp]
theorem updateDiskInfo_interruptInfo (p : Parser) (line : Str) :
    (updateDiskInfo p line).interruptInfo = p.interruptInfo := by
  unfold updateDiskInfo
  repeat' split
  all_goals simp

@[simp]
theorem updateInterruptInfo_config (p : Parser) (line : Str) :
    (updateInterruptInfo p line).config = p.config := by
  unfold updateInterruptInfo
  repeat' split
  all_goals simp

@[simp]
theorem updateInterruptInfo_frequencyMHz (p : Parser) (line : Str) :
    (updateInterruptInfo p line).frequencyMHz = p.frequencyMHz := by
  unfold updateInterruptInfo
  repeat' split
  all_goals simp

@[simp]
theorem updateInterruptInfo_clusterInfo (p : Parser) (line : Str) :
    (updateInterruptInfo p line).clusterInfo = p.clusterInfo := by
  unfold updateInterruptInfo
  repeat' split
  all_goals simp

@[simp]
theorem updateInterruptInfo_cpuResidencies (p : Parser) (line : Str) :
    (updateInterruptInfo p line).cpuResidencies = p.cpuResidencies := by
  unfold updateInterruptInfo
  repeat' split
  all_goals simp

@[simp]
theorem updateInterruptInfo_clusterResidencies (p : Parser) (line : Str) :
    (updateInterruptInfo p line).clusterResidencies = p.clusterResidencies := by
  unfold updateInterruptInfo
  repeat' split
  all_goals simp

@[simp]
theorem updateGPUResidencyInfo_config (p : Parser) (line : Str) :
    (updateGPUResidencyInfo p line).config = p.config := by
  unfold updateGPUResidencyInfo
  repeat' split
  all_goals simp

@[simp]
theorem updateGPUResidencyInfo_frequencyMHz (p : Parser) (line : Str) :
    (updateGPUResidencyInfo p line).frequencyMHz = p.frequencyMHz := by
  unfold updateGPUResidencyInfo
  repeat' split
  all_goals simp

@[simp]
theorem updateGPUResidencyInfo_clusterInfo (p : Parser) (line : Str) :
    (updateGPUResidencyInfo p line).clusterInfo = p.clusterInfo := by
  unfold updateGPUResidencyInfo
  repeat' split
  all_goals simp

@[simp]
theorem updateGPUResidencyInfo_cpuResidencies (p : Parser) (line : Str) :
    (updateGPUResidencyInfo p line).cpuResidencies = p.cpuResidencies := by
  unfold updateGPUResidencyInfo
  repeat' split
  all_goals simp

@[simp]
theorem updateGPUResidencyInfo_clusterResidencies (p : Parser) (line : Str) :
    (updateGPUResidencyInfo p line).clusterResidencies = p.clusterResidencies := by
  unfold updateGPUResidencyInfo
  repeat' split
  all_goals simp

@[simp]
theorem updateGPUResidencyInfo_interruptInfo (p : Parser) (line : Str) :
    (updateGPUResidencyInfo p line).interruptInfo = p.interruptInfo := by
  unfold updateGPUResidencyInfo
  repeat' split
  all_goals simp

@[simp]
theorem updateBatteryInfo_config (p : Parser) (line : Str) :
    (updateBatteryInfo p line).config = p.config := by
  unfold updateBatteryInfo
  repeat' split
  all_goals simp

@[simp]
theorem updateBatteryInfo_frequencyMHz (p : Parser) (line : Str) :
    (updateBatteryInfo p line).frequencyMHz = p.frequencyMHz := by
  unfold updateBatteryInfo
  repeat' split
  all_goals simp

@[simp]
theorem updateBatteryInfo_clusterInfo (p : Parser) (line : Str) :
    (updateBatteryInfo p line).clusterInfo = p.clusterInfo := by
  unfold updateBatteryInfo
  repeat' split
  all_goals simp

@[simp]
theorem updateBatteryInfo_cpuResidencies (p : Parser) (line : Str) :
    (updateBatteryInfo p line).cpuResidencies = p.cpuResidencies := by
  unfold updateBatteryInfo
  repeat' split
  all_goals simp

@[simp]
theorem updateBatteryInfo_clusterResidencies (p : Parser) (line : Str) :
    (updateBatteryInfo p line).clusterResidencies = p.clusterResidencies := by
  unfold updateBatteryInfo
  repeat' split
  all_goals simp

@[simp]
theorem updateBatteryInfo_interruptInfo (p : Parser) (line : Str) :
    (updateBatteryInfo p line).interruptInfo = p.interruptInfo := by
  unfold updateBatteryInfo
  repeat' split
  all_goals simp

/-! ### Key-set growth of the writer updaters -/

theorem updateClusterInfo_keys (p : Parser) (line : Str) (k : Str)
    (h : k ∈ keysA p.clusterInfo) : k ∈ keysA (updateClusterInfo p line).clusterInfo := by
  unfold updateClusterInfo
  repeat' split
  all_goals
    first
      | exact h
      | exact keysA_setA _ _ _ _ (ensureCluster_keys _ _ _ h)

theorem updateCPUInfo_keys_cpu (p : Parser) (line : Str) (k : Nat)
    (h : k ∈ keysA p.cpuResidencies) : k ∈ keysA (updateCPUInfo p line).cpuResidencies := by
  unfold updateCPUInfo
  repeat' split
  all_goals
    first
      | exact h
      | exact keysA_setA _ _ _ _ (ensureCPUResidency_keys _ _ _ h)
      | exact ensureCPUResidency_keys _ _ _ h
      | simpa using h

theorem updateCPUInfo_keys_clusterRes (p : Parser) (line : Str) (k : Str)
    (h : k ∈ keysA p.clusterResidencies) :
    k ∈ keysA (updateCPUInfo p line).clusterResidencies := by
  unfold updateCPUInfo
  repeat' split
  all_goals
    first
      | exact h
      | simpa using h
      | exact keysA_setA _ _ _ _ (ensureClusterResidency_keys _ _ _ h)
      | exact keysA_setA _ _ _ _ (ensureClusterResidency_keys _ _ _
          (keysA_setA _ _ _ _ (ensureClusterResidency_keys _ _ _ h)))

theorem updateInterruptInfo_keys (p : Parser) (line : Str) (k : Nat)
    (h : k ∈ keysA p.interruptInfo) : k ∈ keysA (updateInterruptInfo p line).interruptInfo := by
  unfold updateInterruptInfo
  repeat' split
  all_goals
    first
      | exact h
      | exact ensureInterruptInfo_keys _ _ _ h
      | simpa [keysA_setFirstZeroBy] using h

/-! ### The updater chain, the scalar blocks and the GPU-process path -/

@[simp]
theorem runUpdaters_config (p : Parser) (line : Str) :
    (runUpdaters p line).config = p.config := by
  unfold runUpdaters
  simp

@[simp]
theorem runUpdaters_frequencyMHz (p : Parser) (line : Str) :
    (runUpdaters p line).frequencyMHz = p.frequencyMHz := by
  unfold runUpdaters
  simp

theorem runUpdaters_keys_cluster (p : Parser) (line : Str) (k : Str)
    (h : k ∈ keysA p.clusterInfo) : k ∈ keysA (runUpdaters p line).clusterInfo := by
  unfold runUpdaters
  simp only [updateBatteryInfo_clusterInfo, updateGPUResidencyInfo_clusterInfo,
    updateInterruptInfo_clusterInfo, updateDiskInfo_clusterInfo, updateNetworkInfo_clusterInfo,
    updateCPUInfo_clusterInfo]
  exact updateClusterInfo_keys _ _ _ h

theorem runUpdaters_keys_cpu (p : Parser) (line : Str) (k : Nat)
    (h : k ∈ keysA p.cpuResidencies) : k ∈ keysA (runUpdaters p line).cpuResidencies := by
  unfold runUpdaters
  simp only [updateBatteryInfo_cpuResidencies, updateGPUResidencyInfo_cpuResidencies,
    updateInterruptInfo_cpuResidencies, updateDiskInfo_cpuResidencies,
    updateNetworkInfo_cpuResidencies]
  exact updateCPUInfo_keys_cpu _ _ _ (by simpa using h)

theorem runUpdaters_keys_clusterRes (p : Parser) (line : Str) (k : Str)
    (h : k ∈ keysA p.clusterResidencies) :
    k ∈ keysA (runUpdaters p line).clusterResidencies := by
  unfold runUpdaters
  simp only [updateBatteryInfo_clusterResidencies, updateGPUResidencyInfo_clusterResidencies,
    updateInterruptInfo_clusterResidencies, updateDiskInfo_clusterResidencies,
    updateNetworkInfo_clusterResidencies]
  exact updateCPUInfo_keys_clusterRes _ _ _ (by simpa using h)

theorem runUpdaters_keys_interrupt (p : Parser) (line : Str) (k : Nat)
    (h : k ∈ keysA p.interruptInfo) : k ∈ keysA (runUpdaters p line).interruptInfo := by
  unfold runUpdaters
  simp only [updateBatteryInfo_interruptInfo, updateGPUResidencyInfo_interruptInfo]
  exact updateInterruptInfo_keys _ _ _ (by simpa using h)

@[simp]
theorem parseSystemMetrics_clusterInfo (p : Parser) (line lower : Str) :
    (parseSystemMetrics p line lower).1.clusterInfo = p.clusterInfo := by
  unfold parseSystemMetrics
  dsimp only
  split <;> rfl

@[simp]
theorem parseSystemMetrics_cpuResidencies (p : Parser) (line lower : Str) :
    (parseSystemMetrics p line lower).1.cpuResidencies = p.cpuResidencies := by
  unfold parseSystemMetrics
  dsimp only
  split <;> rfl

@[simp]
theorem parseSystemMetrics_clusterResidencies (p : Parser) (line lower : Str) :
    (parseSystemMetrics p line lower).1.clusterResidencies = p.clusterResidencies := by
  unfold parseSystemMetrics
  dsimp only
  split <;> rfl

@[simp]
theorem parseSystemMetrics_interruptInfo (p : Parser) (line lower : Str) :
    (parseSystemMetrics p line lower).1.interruptInfo = p.interruptInfo := by
  unfold parseSystemMetrics
  dsimp only
  split <;> rfl

/-- `parseGPUProcessLine` never returns an error: every return site of the
Go function has a nil error. -/
theorem parseGPUProcessLine_err (p : Parser) (line : Str) :
    (parseGPUProcessLine p line).2 = none := by
  unfold parseGPUProcessLine
  repeat' split
  all_goals rfl

/-- `parseGPUProcessLine` reads its receiver only through the configured
sample window and the cached GPU frequency. -/
theorem parseGPUProcessLine_congr (p q : Parser) (line : Str)
    (hc : p.config = q.config) (hf : p.frequencyMHz = q.frequencyMHz) :
    parseGPUProcessLine p line = parseGPUProcessLine q line := by
  unfold parseGPUProcessLine
  rw [hc, hf]

/-- A successful `parseGPUProcessLine` snapshot holds exactly one process
sample and nothing else, and presupposes a `procLineRegex` match. -/
theorem parseGPUProcessLine_shape (p : Parser) (line : Str) (m : Metrics)
    (h : (parseGPUProcessLine p line).1 = some m) :
    (∃ pm, procLineMatch line = some pm) ∧
    ∃ s, m = { Metrics.empty with GPUProcessSamples := [s] } := by
  unfold parseGPUProcessLine at h
  split at h
  · simp at h
  · rename_i pm hpm
    split at h
    · simp at h
    · split at h
      · simp at h
      · simp only [Option.some.injEq] at h
        exact ⟨⟨pm, hpm⟩, ⟨_, h.symm⟩⟩

/-- A `procLineRegex` match forces the literal `pid` at the start of the
line. -/
theorem procLineMatch_pid (line : Str) (pm : ProcMatch)
    (h : procLineMatch line = some pm) : leadsWith (strL "pid") line = true := by
  unfold procLineMatch litThen at h
  split at h
  · assumption
  · simp at h

/-! ### Order and arithmetic facts about the numeric model -/

theorem fq_le_of_not_lt {a b : Fq} (h : ¬ a < b) : b ≤ a := by
  change ¬ (a.num * b.den < b.num * a.den) at h
  change b.num * a.den ≤ a.num * b.den
  omega

theorem clampPercent_nonneg (x : Fq) : 0 ≤ clampPercent x := by
  unfold clampPercent
  split
  · decide
  · split
    · decide
    · rename_i h1 h2
      exact fq_le_of_not_lt h1

theorem clampPercent_le_100 (x : Fq) : clampPercent x ≤ 100 := by
  unfold clampPercent
  split
  · decide
  · split
    · decide
    · rename_i h1 h2
      change ¬ ((100 : Int) * x.den < x.num * 1) at h2
      change x.num * 1 ≤ (100 : Int) * x.den
      omega

theorem mkFq_zero (d : Nat) : mkFq 0 d = (0 : Fq) := by
  unfold mkFq
  split
  · rfl
  · rename_i hd
    show (⟨_, _⟩ : Fq) = ⟨0, 1⟩
    simp [Int.natAbs_zero, Nat.gcd_zero_left, Int.zero_tdiv,
      Nat.div_self (Nat.pos_of_ne_zero hd)]

theorem fq_zero_div (b : Fq) : (0 : Fq) / b = 0 := by
  show mkFqi ((0 : Fq).num * b.den) (((0 : Fq).den : Int) * b.num) = 0
  have h0 : (0 : Fq).num * (b.den : Int) = 0 := by
    show (0 : Int) * (b.den : Int) = 0
    omega
  rw [h0]
  unfold mkFqi
  split <;> exact mkFq_zero _

theorem fq_zero_mul (b : Fq) : (0 : Fq) * b = 0 := by
  show mkFq ((0 : Fq).num * b.num) ((0 : Fq).den * b.den) = 0
  have h0 : (0 : Fq).num * b.num = 0 := by
    show (0 : Int) * b.num = 0
    omega
  rw [h0]
  exact mkFq_zero _

/-! ### Nonemptiness transport and GPU-process line facts -/

theorem keysA_ne_nil {κ α : Type} {l : List (κ × α)} (h : l ≠ []) : ∃ k, k ∈ keysA l := by
  cases l with
  | nil => exact absurd rfl h
  | cons hd tl => exact ⟨hd.1, by simp [keysA]⟩

theorem ne_nil_of_keysA_mem {κ α : Type} {l : List (κ × α)} {k : κ} (h : k ∈ keysA l) :
    l ≠ [] := by
  cases l with
  | nil => simp [keysA] at h
  | cons hd tl => simp

theorem runUpdaters_cluster_ne_nil (p : Parser) (line : Str) (h : p.clusterInfo ≠ []) :
    (runUpdaters p line).clusterInfo ≠ [] := by
  obtain ⟨k, hk⟩ := keysA_ne_nil h
  exact ne_nil_of_keysA_mem (runUpdaters_keys_cluster p line k hk)

theorem leadsWith_pid_facts (s : Str) (h : leadsWith (strL "pid") s = true) :
    s.isEmpty = false ∧ leadsWith (strL "--") s = false := by
  cases s with
  | nil => simp [strL, leadsWith] at h
  | cons c cs =>
    refine ⟨rfl, ?_⟩
    have hc : c = 'p' := by
      simp only [strL, leadsWith, Bool.and_eq_true, beq_iff_eq] at h
      exact h.1.symm
    subst hc
    simp [strL, leadsWith]

theorem parseGPUProcessLine_pair (p : Parser) (line : Str) (m : Metrics)
    (h : (parseGPUProcessLine p line).1 = some m) :
    parseGPUProcessLine p line = (some m, none) := by
  have herr := parseGPUProcessLine_err p line
  cases hp : parseGPUProcessLine p line with
  | mk a b =>
    rw [hp] at h herr
    simp at h herr
    rw [h, herr]

/-! ### The claims -/

/-- C1, counterexample: the claim says an unrecognized line yields no
snapshot even after earlier lines populated the accumulator maps.  In
fact, once the cluster map is populated, the same unrecognized line that
yields no snapshot on a fresh parser yields a full snapshot. -/
theorem C1_counterexample :
    (ParseLine freshParser (strL "some unrecognized text line")).2.1 = none ∧
    (ParseLine (ParseLine freshParser (strL "E-Cluster Online: 100%")).1
        (strL "some unrecognized text line")).2.1.isSome = true := by decide

/-- C1, amended: an unrecognized line yields no snapshot only while the
map-based emission flags are clear; once the cluster map is non-empty,
every non-blank, non-comment, non-banner line (unrecognized or not)
makes `ParseLine` return a snapshot, because emission checks only map
non-emptiness, not whether this line wrote data. -/
theorem C1_amended_emission :
    ∀ (p : Parser) (line : Str),
      p.clusterInfo ≠ [] →
      (trimSpace line).isEmpty = false →
      leadsWith (strL "--") (trimSpace line) = false →
      (sectionBanners.any fun b => containsSub b (trimSpace line)) = false →
      (ParseLine p line).2.1.isSome = true := by
  intro p line hc h1 h2 h3
  unfold ParseLine
  dsimp only
  rw [h1, h2]
  rw [if_neg (by simp)]
  rw [h3, if_neg (by simp)]
  split
  · rename_i heq
    have herr := parseGPUProcessLine_err (runUpdaters p (trimSpace line)) (trimSpace line)
    rw [heq] at herr
    simp at herr
  · simp
  · have hne := runUpdaters_cluster_ne_nil p (trimSpace line) hc
    have hcl : (runUpdaters p (trimSpace line)).clusterInfo.isEmpty = false := by
      cases hx : (runUpdaters p (trimSpace line)).clusterInfo with
      | nil => exact absurd hx hne
      | cons a b => rfl
    split
    · simp
    · rename_i hcond
      exact absurd (by simp [hcl]) hcond

/-- C1, witness for the amended theorem at a populated parser and an
unrecognized line. -/
theorem C1_amended_emission_witness :
    (ParseLine (ParseLine freshParser (strL "E-Cluster Online: 100%")).1
        (strL "some unrecognized text line")).2.1.isSome = true :=
  C1_amended_emission _ _ (by decide) (by decide) (by decide) (by decide)

/-- C2, counterexample: the cluster-online updater stores its parsed
percentage without clamping, so the line `E-Cluster Online: 150%` leaves
150 — a value outside [0, 100] — in the accumulator. -/
theorem C2_counterexample :
    lookupA (ParseLine freshParser (strL "E-Cluster Online: 150%")).1.clusterInfo
        (strL "E-Cluster") = some ⟨strL "E-Cluster", strL "Efficiency", 150, 0⟩ ∧
    ¬ ((150 : Fq) ≤ 100) := by decide

/-- C2, amended: `clampPercent` itself maps every input into [0, 100]
(150 → 100, −10 → 0), and the duration-derived busy percentage is always
clamped; but explicit percent fields written by the other updaters are
stored unclamped, so the [0, 100] invariant holds only where `clampPercent`
is actually applied. -/
theorem C2_amended_clamp :
    (∀ x : Fq, 0 ≤ clampPercent x ∧ clampPercent x ≤ 100) ∧
    clampPercent 150 = 100 ∧
    clampPercent (-10) = 0 ∧
    (∀ (ns : Nat) (s : Str) (w : Int),
        0 ≤ deriveBusyPercent ns s w ∧ deriveBusyPercent ns s w ≤ 100) := by
  refine ⟨fun x => ⟨clampPercent_nonneg x, clampPercent_le_100 x⟩, by decide, by decide, ?_⟩
  intro ns s w
  unfold deriveBusyPercent
  split
  · exact ⟨clampPercent_nonneg _, clampPercent_le_100 _⟩
  · split
    · exact ⟨by decide, by decide⟩
    · exact ⟨clampPercent_nonneg _, clampPercent_le_100 _⟩

/-- C3: the four specified trailing-value extractions — plain unit,
parenthetical ignored, rightmost number wins, and no-number-found. -/
theorem C3_parse_trailing_value :
    parseTrailingValue (strL "CPU Power: 15.5 W") (strL "w") = (15.5, true) ∧
    parseTrailingValue (strL "CPU Power: 15.5 W (100%)") (strL "w") = (15.5, true) ∧
    parseTrailingValue (strL "Total: 10.0 W out of 100.0 W") (strL "w") = (100, true) ∧
    parseTrailingValue (strL "CPU Power: N/A W") (strL "w") = (0, false) := by decide

/-- The six-line end-to-end scenario of C4. -/
def c4lines : List Str :=
  [strL "Battery: percent_charge: 36",
   strL "out: 57.75 packets/s, 4586.65 bytes/s",
   strL "read: 8.56 ops/s 45.67 KBytes/s",
   strL "E-Cluster Online: 100%",
   strL "CPU 0 active residency: 55.11% (1020 MHz: 39%)",
   strL "GPU HW active residency: 1.63% (338 MHz: 1.6%)"]

/-- The accumulator state after feeding the C4 lines to a fresh parser. -/
def c4state : Parser := c4lines.foldl (fun p l => (ParseLine p l).1) freshParser

/-- C4: after the six lines, the accumulator holds battery 36, outgoing
packet rate 57.75, read byte rate 45.67 × 1024 (KB/s scaled at ingestion),
exactly one cluster `E-Cluster` at 100 % online, exactly one CPU-residency
entry (id 0) with 39 at key 1020, and GPU HW-active residency 1.63. -/
theorem C4_end_to_end :
    c4state.system.BatteryPercent = 36 ∧
    (c4state.networkInfo.map fun n => n.OutPacketsPerSec) = some 57.75 ∧
    (c4state.diskInfo.map fun d => d.ReadBytesPerSec) = some (45.67 * 1024) ∧
    c4state.clusterInfo = [(strL "E-Cluster", ⟨strL "E-Cluster", strL "Efficiency", 100, 0⟩)] ∧
    c4state.cpuResidencies = [(0, ⟨0, [(1020, 39)], 0, 0, 0⟩)] ∧
    c4state.gpuResidency.HWActiveResidency = 1.63 := by decide

/-- C5, counterexample: a line that matches the GPU-process pattern but
whose process name contains a section banner is consumed as a section
no-op, so `ParseLine` returns no snapshot for it. -/
theorem C5_counterexample :
    (procLineMatch (trimSpace (strL "pid 1 **** GPU usage **** 5ms"))).isSome = true ∧
    (ParseLine freshParser (strL "pid 1 **** GPU usage **** 5ms")).2.1 = none := by decide

/-- C5, amended: for every line matching the GPU-process pattern whose
trimmed text contains no section banner, `ParseLine` returns exactly the
standalone snapshot: one process sample and every other field empty/nil;
and on `pid 1234 Safari 5.2ms (85.5%)` the explicit percent wins, giving
busy 85.5 and 5,200,000 active nanoseconds. -/
theorem C5_amended_gpu_process :
    (∀ (p : Parser) (line : Str) (m : Metrics),
      (sectionBanners.any fun b => containsSub b (trimSpace line)) = false →
      (parseGPUProcessLine p (trimSpace line)).1 = some m →
      (ParseLine p line).2.1 = some m ∧
      (∃ s, m.GPUProcessSamples = [s]) ∧
      m.SystemSample = none ∧ m.Clusters = [] ∧ m.CPUResidencies = [] ∧
      m.ClusterResidencies = [] ∧ m.GPUResidency = none ∧ m.Network = none ∧
      m.Disk = none ∧ m.Interrupts = []) ∧
    (parseGPUProcessLine freshParser (strL "pid 1234 Safari 5.2ms (85.5%)")).1 =
      some { Metrics.empty with
              GPUProcessSamples := [⟨1234, strL "Safari", 85.5, 5200000, 0⟩] } := by
  constructor
  · intro p line m hban h
    obtain ⟨⟨pm, hpm⟩, ⟨s, hs⟩⟩ := parseGPUProcessLine_shape _ _ _ h
    have hpid := procLineMatch_pid _ _ hpm
    obtain ⟨hne, hdash⟩ := leadsWith_pid_facts _ hpid
    have hmain : (ParseLine p line).2.1 = some m := by
      unfold ParseLine
      dsimp only
      rw [hne, hdash]
      rw [if_neg (by simp)]
      rw [hban, if_neg (by simp)]
      have hcongr : parseGPUProcessLine (runUpdaters p (trimSpace line)) (trimSpace line) =
          parseGPUProcessLine p (trimSpace line) :=
        parseGPUProcessLine_congr _ _ _ (by simp) (by simp)
      rw [hcongr, parseGPUProcessLine_pair p (trimSpace line) m h]
    refine ⟨hmain, ⟨s, by rw [hs]⟩, ?_, ?_, ?_, ?_, ?_, ?_, ?_, ?_⟩ <;> rw [hs] <;> rfl
  · decide

/-- C5, witness for the amended theorem at the Safari line. -/
theorem C5_amended_gpu_process_witness :
    (ParseLine freshParser (strL "pid 1234 Safari 5.2ms (85.5%)")).2.1 =
      some { Metrics.empty with
              GPUProcessSamples := [⟨1234, strL "Safari", 85.5, 5200000, 0⟩] } :=
  (C5_amended_gpu_process.1 _ _ _ (by decide) (by decide)).1

/-- C6: busy-percent derivation — a parsing explicit percent wins and is
clamped regardless of window; otherwise a non-positive window gives 0, a
positive window gives the clamped duration ratio; and the spec's concrete
cases. -/
theorem C6_derive_busy_percent :
    (∀ (s : Str) (q : Fq) (ns : Nat) (w : Int),
        parseFloatQ? s = some q → deriveBusyPercent ns s w = clampPercent q) ∧
    (∀ (s : Str) (ns : Nat) (w : Int),
        parseFloatQ? s = none → w ≤ 0 → deriveBusyPercent ns s w = 0) ∧
    (∀ (s : Str) (ns : Nat) (w : Int),
        parseFloatQ? s = none → 0 < w →
          deriveBusyPercent ns s w = clampPercent ((ns : Fq) / (w : Fq) * 100)) ∧
    (∀ (ns : Nat) (w : Int), deriveBusyPercent ns (strL "85.5") w = 85.5) ∧
    deriveBusyPercent 500000000 [] 1000000000 = 50 ∧
    deriveBusyPercent 1500000000 [] 1000000000 = 100 := by
  refine ⟨?_, ?_, ?_, ?_, by decide, by decide⟩
  · intro s q ns w h
    unfold deriveBusyPercent
    cases s with
    | nil => simp [parseFloatQ?, parseDecQ?] at h
    | cons c cs => simp [h]
  · intro s ns w h hw
    unfold deriveBusyPercent
    cases s with
    | nil =>
      simp only [List.isEmpty_nil, if_true]
      simp [hw]
    | cons c cs =>
      simp only [List.isEmpty_cons, if_false]
      simp [h, hw]
  · intro s ns w h hw
    have hns : deriveBusyPercent ns s w =
        (if w ≤ 0 ∨ ns = 0 then 0 else clampPercent ((ns : Fq) / (w : Fq) * 100)) := by
      unfold deriveBusyPercent
      cases s with
      | nil => simp
      | cons c cs => simp [h]
    rw [hns]
    rcases Nat.eq_zero_or_pos ns with h0 | h0
    · subst h0
      have hcast : ((0 : Nat) : Fq) = (0 : Fq) := rfl
      rw [if_pos (Or.inr rfl), hcast, fq_zero_div, fq_zero_mul]
      decide
    · rw [if_neg]
      omega
  · intro ns w
    unfold deriveBusyPercent
    have h1 : (strL "85.5").isEmpty = false := by decide
    have h2 : parseFloatQ? (strL "85.5") = some (85.5 : Fq) := by decide
    simp [h1, h2]
    decide

/-- C6, witness exercising every hypothesis of the derivation theorem at
concrete inputs. -/
theorem C6_derive_busy_percent_witness :
    deriveBusyPercent 0 (strL "85.5") 0 = clampPercent 85.5 ∧
    deriveBusyPercent 7 [] (-5) = 0 ∧
    deriveBusyPercent 500000000 [] 1000000000 =
      clampPercent ((500000000 : Fq) / (1000000000 : Fq) * 100) :=
  ⟨C6_derive_busy_percent.1 _ 85.5 0 0 (by decide),
   C6_derive_busy_percent.2.1 [] 7 (-5) (by decide) (by decide),
   C6_derive_busy_percent.2.2.1 [] 500000000 1000000000 (by decide) (by decide)⟩

/-- C7: every ensure accessor is idempotent — an existing key returns the
existing entry with the state unchanged, a new key registers and returns a
zero-initialized entry — and over any `ParseLine` call every accumulator
map's key set only grows. -/
theorem C7_ensure_idempotent_monotone :
    (∀ (p : Parser) (name : Str) (c : ClusterInfo),
        lookupA p.clusterInfo name = some c → ensureCluster p name = (p, c)) ∧
    (∀ (p : Parser) (name : Str),
        lookupA p.clusterInfo name = none →
          lookupA (ensureCluster p name).1.clusterInfo name = some (ensureCluster p name).2 ∧
          (ensureCluster p name).2.Name = name ∧
          (ensureCluster p name).2.OnlinePercent = 0 ∧
          (ensureCluster p name).2.HWActiveFreq = 0) ∧
    (∀ (p : Parser) (cpuID : Nat) (c : CPUResidencyMetrics),
        lookupA p.cpuResidencies cpuID = some c → ensureCPUResidency p cpuID = (p, c)) ∧
    (∀ (p : Parser) (cpuID : Nat),
        lookupA p.cpuResidencies cpuID = none →
          lookupA (ensureCPUResidency p cpuID).1.cpuResidencies cpuID
            = some (ensureCPUResidency p cpuID).2 ∧
          (ensureCPUResidency p cpuID).2 = ⟨cpuID, [], 0, 0, 0⟩) ∧
    (∀ (p : Parser) (name : Str) (c : ClusterResidencyMetrics),
        lookupA p.clusterResidencies name = some c → ensureClusterResidency p name = (p, c)) ∧
    (∀ (p : Parser) (name : Str),
        lookupA p.clusterResidencies name = none →
          lookupA (ensureClusterResidency p name).1.clusterResidencies name
            = some (ensureClusterResidency p name).2 ∧
          (ensureClusterResidency p name).2 = ⟨name, [], 0, 0, 0, [], 0, 0⟩) ∧
    (∀ (p : Parser) (cpuID : Nat) (c : InterruptMetrics),
        lookupA p.interruptInfo cpuID = some c → ensureInterruptInfo p cpuID = (p, c)) ∧
    (∀ (p : Parser) (cpuID : Nat),
        lookupA p.interruptInfo cpuID = none →
          lookupA (ensureInterruptInfo p cpuID).1.interruptInfo cpuID
            = some (ensureInterruptInfo p cpuID).2 ∧
          (ensureInterruptInfo p cpuID).2 = ⟨cpuID, 0, 0, 0⟩) ∧
    (∀ (p : Parser) (line : Str) (k : Str),
        k ∈ keysA p.clusterInfo → k ∈ keysA (ParseLine p line).1.clusterInfo) ∧
    (∀ (p : Parser) (line : Str) (k : Nat),
        k ∈ keysA p.cpuResidencies → k ∈ keysA (ParseLine p line).1.cpuResidencies) ∧
    (∀ (p : Parser) (line : Str) (k : Str),
        k ∈ keysA p.clusterResidencies → k ∈ keysA (ParseLine p line).1.clusterResidencies) ∧
    (∀ (p : Parser) (line : Str) (k : Nat),
        k ∈ keysA p.interruptInfo → k ∈ keysA (ParseLine p line).1.interruptInfo) := by
  refine ⟨?_, ?_, ?_, ?_, ?_, ?_, ?_, ?_, ?_, ?_, ?_, ?_⟩
  · intro p name c h
    unfold ensureCluster
    rw [h]
  · intro p name h
    unfold ensureCluster
    rw [h]
    exact ⟨lookupA_setA_self _ _ _, rfl, rfl, rfl⟩
  · intro p cpuID c h
    unfold ensureCPUResidency
    rw [h]
  · intro p cpuID h
    unfold ensureCPUResidency
    rw [h]
    exact ⟨lookupA_setA_self _ _ _, rfl⟩
  · intro p name c h
    unfold ensureClusterResidency
    rw [h]
  · intro p name h
    unfold ensureClusterResidency
    rw [h]
    exact ⟨lookupA_setA_self _ _ _, rfl⟩
  · intro p cpuID c h
    unfold ensureInterruptInfo
    rw [h]
  · intro p cpuID h
    unfold ensureInterruptInfo
    rw [h]
    exact ⟨lookupA_setA_self _ _ _, rfl⟩
  · intro p line k h
    unfold ParseLine
    dsimp only
    split
    · exact h
    · split
      · exact h
      · split
        · exact runUpdaters_keys_cluster _ _ _ h
        · exact runUpdaters_keys_cluster _ _ _ h
        · split
          · simpa using runUpdaters_keys_cluster _ _ _ h
          · simpa using runUpdaters_keys_cluster _ _ _ h
  · intro p line k h
    unfold ParseLine
    dsimp only
    split
    · exact h
    · split
      · exact h
      · split
        · exact runUpdaters_keys_cpu _ _ _ h
        · exact runUpdaters_keys_cpu _ _ _ h
        · split
          · simpa using runUpdaters_keys_cpu _ _ _ h
          · simpa using runUpdaters_keys_cpu _ _ _ h
  · intro p line k h
    unfold ParseLine
    dsimp only
    split
    · exact h
    · split
      · exact h
      · split
        · exact runUpdaters_keys_clusterRes _ _ _ h
        · exact runUpdaters_keys_clusterRes _ _ _ h
        · split
          · simpa using runUpdaters_keys_clusterRes _ _ _ h
          · simpa using runUpdaters_keys_clusterRes _ _ _ h
  · intro p line k h
    unfold ParseLine
    dsimp only
    split
    · exact h
    · split
      · exact h
      · split
        · exact runUpdaters_keys_interrupt _ _ _ h
        · exact runUpdaters_keys_interrupt _ _ _ h
        · split
          · simpa using runUpdaters_keys_interrupt _ _ _ h
          · simpa using runUpdaters_keys_interrupt _ _ _ h

/-- Three lines that populate each accumulator map, used to witness C7. -/
def c7lines : List Str :=
  [strL "E-Cluster Online: 100%",
   strL "E-Cluster HW active residency: 50% (600 MHz: 50%)",
   strL "CPU 0:"]

/-- The parser state after the C7 witness lines. -/
def c7parser : Parser := c7lines.foldl (fun p l => (ParseLine p l).1) freshParser

/-- C7, witness exercising every hypothesis: idempotence at present and
absent keys of all four ensure accessors, and key-set growth of all four
maps across a `ParseLine` call on an unrecognized line. -/
theorem C7_ensure_idempotent_monotone_witness :
    ensureCluster c7parser (strL "E-Cluster")
      = (c7parser, ⟨strL "E-Cluster", strL "Efficiency", 100, 0⟩) ∧
    lookupA (ensureCluster freshParser (strL "X")).1.clusterInfo (strL "X")
      = some (ensureCluster freshParser (strL "X")).2 ∧
    ensureCPUResidency c7parser 0 = (c7parser, ⟨0, [], 0, 0, 0⟩) ∧
    lookupA (ensureCPUResidency freshParser 5).1.cpuResidencies 5
      = some (ensureCPUResidency freshParser 5).2 ∧
    ensureClusterResidency c7parser (strL "E-Cluster")
      = (c7parser, ⟨strL "E-Cluster", [], 0, 0, 50, [(600, 50)], 0, 0⟩) ∧
    lookupA (ensureClusterResidency freshParser (strL "X")).1.clusterResidencies (strL "X")
      = some (ensureClusterResidency freshParser (strL "X")).2 ∧
    ensureInterruptInfo c7parser 0 = (c7parser, ⟨0, 0, 0, 0⟩) ∧
    lookupA (ensureInterruptInfo freshParser 5).1.interruptInfo 5
      = some (ensureInterruptInfo freshParser 5).2 ∧
    (strL "E-Cluster") ∈ keysA (ParseLine c7parser (strL "zzz")).1.clusterInfo ∧
    0 ∈ keysA (ParseLine c7parser (strL "zzz")).1.cpuResidencies ∧
    (strL "E-Cluster") ∈ keysA (ParseLine c7parser (strL "zzz")).1.clusterResidencies ∧
    0 ∈ keysA (ParseLine c7parser (strL "zzz")).1.interruptInfo :=
  ⟨C7_ensure_idempotent_monotone.1 _ _ _ (by decide),
   (C7_ensure_idempotent_monotone.2.1 freshParser (strL "X") (by decide)).1,
   C7_ensure_idempotent_monotone.2.2.1 _ _ _ (by decide),
   (C7_ensure_idempotent_monotone.2.2.2.1 freshParser 5 (by decide)).1,
   C7_ensure_idempotent_monotone.2.2.2.2.1 _ _ _ (by decide),
   (C7_ensure_idempotent_monotone.2.2.2.2.2.1 freshParser (strL "X") (by decide)).1,
   C7_ensure_idempotent_monotone.2.2.2.2.2.2.1 _ _ _ (by decide),
   (C7_ensure_idempotent_monotone.2.2.2.2.2.2.2.1 freshParser 5 (by decide)).1,
   C7_ensure_idempotent_monotone.2.2.2.2.2.2.2.2.1 c7parser (strL "zzz") _ (by decide),
   C7_ensure_idempotent_monotone.2.2.2.2.2.2.2.2.2.1 c7parser (strL "zzz") _ (by decide),
   C7_ensure_idempotent_monotone.2.2.2.2.2.2.2.2.2.2.1 c7parser (strL "zzz") _ (by decide),
   C7_ensure_idempotent_monotone.2.2.2.2.2.2.2.2.2.2.2 c7parser (strL "zzz") _ (by decide)⟩

/-- C8: `ParseLine` never returns an error for any content, and an empty
or `--`-prefixed line (after trimming) returns no snapshot and leaves the
state unchanged. -/
theorem C8_no_content_errors :
    ∀ (p : Parser) (line : Str),
      (ParseLine p line).2.2 = none ∧
      ((trimSpace line).isEmpty = true ∨ leadsWith (strL "--") (trimSpace line) = true →
        ParseLine p line = (p, none, none)) := by
  intro p line
  constructor
  · unfold ParseLine
    dsimp only
    split
    · rfl
    · split
      · rfl
      · split
        · rename_i heq
          have herr := parseGPUProcessLine_err (runUpdaters p (trimSpace line)) (trimSpace line)
          rw [heq] at herr
          simp at herr
        · rfl
        · split <;> rfl
  · intro h
    unfold ParseLine
    rcases h with h | h <;> simp [h]

/-- C8, witness: a comment line on a fresh parser. -/
theorem C8_no_content_errors_witness :
    ParseLine freshParser (strL "-- comment") = (freshParser, none, none) :=
  (C8_no_content_errors freshParser (strL "-- comment")).2 (Or.inr (by decide))

/-- C9: parsing `CPU Power: 15.5 W` twice in a row accumulates 15.5 after
each parse (no drift) and both calls return a snapshot. -/
theorem C9_idempotent_rescan :
    (ParseLine freshParser (strL "CPU Power: 15.5 W")).1.system.CPUPowerWatts = 15.5 ∧
    (ParseLine (ParseLine freshParser (strL "CPU Power: 15.5 W")).1
        (strL "CPU Power: 15.5 W")).1.system.CPUPowerWatts = 15.5 ∧
    (ParseLine freshParser (strL "CPU Power: 15.5 W")).2.1.isSome = true ∧
    (ParseLine (ParseLine freshParser (strL "CPU Power: 15.5 W")).1
        (strL "CPU Power: 15.5 W")).2.1.isSome = true := by decide

/-- C10: a GPU HW-active-frequency line stores the parsed frequency in the
GPU residency record's `PowerMilliwatts` field and changes nothing else;
concretely, `338 MHz` lands in `PowerMilliwatts`, in the cached
`frequencyMHz`, and in `SystemSample.GPUFrequencyMHz`, and a later
`GPU Power: 5.0 W` line overwrites `PowerMilliwatts` with 5000. -/
theorem C10_gpu_freq_power_field :
    (∀ (p : Parser) (line : Str) (numStr : Str),
        searchM gpuFreqAt line = some numStr →
        updateGPUResidencyInfo p line =
          { p with gpuResidency :=
              { p.gpuResidency with PowerMilliwatts := parseFloatOr0 numStr } }) ∧
    ((ParseLine freshParser
        (strL "GPU HW active frequency: 338 MHz")).1.gpuResidency.PowerMilliwatts = 338 ∧
     (ParseLine freshParser (strL "GPU HW active frequency: 338 MHz")).1.frequencyMHz = 338 ∧
     (ParseLine freshParser
        (strL "GPU HW active frequency: 338 MHz")).1.system.GPUFrequencyMHz = 338 ∧
     (ParseLine (ParseLine freshParser (strL "GPU HW active frequency: 338 MHz")).1
        (strL "GPU Power: 5.0 W")).1.gpuResidency.PowerMilliwatts = 5000) := by
  constructor
  · intro p line numStr h
    unfold updateGPUResidencyInfo
    rw [h]
  · decide

/-- C10, witness for the general frequency-into-power-field statement. -/
theorem C10_gpu_freq_power_field_witness :
    updateGPUResidencyInfo freshParser (strL "GPU HW active frequency: 338 MHz") =
      { freshParser with gpuResidency :=
          { freshParser.gpuResidency with PowerMilliwatts := parseFloatOr0 (strL "338") } } :=
  C10_gpu_freq_power_field.1 _ _ _ (by decide)

end PM
